import Mathlib

/-!
Verification development for the tabular analysis core of the dataset
exploration backend (services: dataset_visualizer, quick_analyzer,
gemini_analyzer, dataset_profiler).

The embedding models a pandas DataFrame as a `Table`: a list of typed
column headers plus a list of rows, each row a list of cells.  Cell
values are exact rationals (modelling float arithmetic exactly), text,
or missing (NaN).  Fallible aggregators return `Except String`; the
lenient row filter is a total function, as in the source.
-/

/-- A single cell of a table: missing (NaN/None), a number, or text. -/
inductive Cell
  | missing
  | num (q : ℚ)
  | str (s : String)
deriving DecidableEq, Repr

/-- Storage dtype of a pandas column, as distinguished by the
pd.api.types predicates the source calls. -/
inductive Dtype
  | numeric
  | datetime
  | object
  | category
  | other
deriving DecidableEq, Repr

/-- A named, typed column header. -/
structure Header where
  name : String
  dtype : Dtype
deriving DecidableEq, Repr

/-- A DataFrame: ordered headers and ordered rows of cells. -/
structure Table where
  headers : List Header
  rows : List (List Cell)
deriving DecidableEq, Repr

/-- Names of the columns of a table (df.columns). -/
def Table.colNames (df : Table) : List String :=
  df.headers.map Header.name

/-- Lookup of a column header by name; none models `col not in df.columns`. -/
def Table.findHeader (df : Table) (c : String) : Option Header :=
  df.headers.find? (fun h => decide (h.name = c))

/-- Positional index of a named column. -/
def Table.colIdx (df : Table) (c : String) : ℕ :=
  df.headers.findIdx (fun h => decide (h.name = c))

/-- The cell sequence of a named column (df[col]). -/
def Table.series (df : Table) (c : String) : List Cell :=
  df.rows.map (fun r => r.getD (df.colIdx c) Cell.missing)

/-- Keep only the rows whose cell in column `c` satisfies `p`
(boolean-mask row selection df[mask]). -/
def Table.filterRows (df : Table) (c : String) (p : Cell → Bool) : Table :=
  ⟨df.headers, df.rows.filter (fun r => p (r.getD (df.colIdx c) Cell.missing))⟩

/-- Numeric value of a cell, if it is a number. -/
def cellToNum : Cell → Option ℚ
  | Cell.num q => some q
  | _ => none

/-- Drop missing cells (Series.dropna). -/
def dropna (cells : List Cell) : List Cell :=
  cells.filter (fun c => decide (c ≠ Cell.missing))

/-- Value of the decimal digits of a character list. -/
def digitsVal (cs : List Char) : ℕ :=
  cs.foldl (fun a c => a * 10 + (c.toNat - 48)) 0

/-- Simplified model of the Python float(string) literal parser: optional
sign, then decimal digits with an optional fractional part (whitespace
stripping and exponent forms are not modelled).  The claims rely only on
plain decimals parsing and non-numeric text failing. -/
def parseRat (s : String) : Option ℚ :=
  let cs := s.toList
  let signed : ℚ × List Char :=
    match cs with
    | '-' :: r => (-1, r)
    | '+' :: r => (1, r)
    | r => (1, r)
  let intPart := signed.2.takeWhile Char.isDigit
  let after := signed.2.drop intPart.length
  match after with
  | [] => if intPart.isEmpty then none else some (signed.1 * digitsVal intPart)
  | '.' :: frac =>
    if frac.all Char.isDigit ∧ (intPart ≠ [] ∨ frac ≠ []) then
      some (signed.1 * ((digitsVal intPart : ℚ) + (digitsVal frac : ℚ) / (10 ^ frac.length)))
    else none
  | _ => none

/-- Python float(value) over a cell value; none models a raised
TypeError/ValueError. -/
def pyFloat : Cell → Option ℚ
  | Cell.num q => some q
  | Cell.str s => parseRat s
  | Cell.missing => none

/-- Python str(value) over a cell (Series.astype(str)); the rendering of
numbers is approximated by the exact rational rendering, and NaN becomes
the string nan as in pandas.  No claim depends on the number rendering. -/
def pyStr : Cell → String
  | Cell.num q => toString q
  | Cell.str s => s
  | Cell.missing => "nan"

/-- Whether `pat` occurs as a contiguous run inside `text`. -/
def subListAt (pat : List Char) : List Char → Bool
  | [] => pat.isEmpty
  | c :: rest => pat.isPrefixOf (c :: rest) || subListAt pat rest

/-- Case-insensitive substring test (Series.str.contains with case=False;
the regex interpretation of the pattern is approximated by a plain
substring test, which no claim depends on). -/
def containsCI (text pat : String) : Bool :=
  subListAt pat.toLower.toList text.toLower.toList

/-- Row predicate selected by the numeric branch of apply_filter.  A
missing cell compares false except under the != operator, where pandas
NaN != v is true.  none models the if/elif chain falling through. -/
def numPred (op : String) (v : ℚ) : Option (Cell → Bool) :=
  if op = ">" then some (fun c => match c with | Cell.num a => decide (v < a) | _ => false)
  else if op = "<" then some (fun c => match c with | Cell.num a => decide (a < v) | _ => false)
  else if op = ">=" then some (fun c => match c with | Cell.num a => decide (v ≤ a) | _ => false)
  else if op = "<=" then some (fun c => match c with | Cell.num a => decide (a ≤ v) | _ => false)
  else if op = "==" then some (fun c => match c with | Cell.num a => decide (a = v) | _ => false)
  else if op = "!=" then some (fun c => match c with | Cell.num a => decide (a ≠ v) | _ => true)
  else none

/-- Row predicate selected by the string branch of apply_filter
(lexicographic comparison of astype(str) values). -/
def strPred (op : String) (sv : String) : Option (Cell → Bool) :=
  if op = ">" then some (fun c => decide (sv < pyStr c))
  else if op = "<" then some (fun c => decide (pyStr c < sv))
  else if op = ">=" then some (fun c => decide (sv ≤ pyStr c))
  else if op = "<=" then some (fun c => decide (pyStr c ≤ sv))
  else if op = "==" then some (fun c => decide (pyStr c = sv))
  else if op = "!=" then some (fun c => decide (pyStr c ≠ sv))
  else if op = "contains" then some (fun c => containsCI (pyStr c) sv)
  else none

/-- apply_filter from dataset_visualizer: lenient single-predicate row
filter.  Falsy (absent or empty) column or operator, an absent value, an
unknown column, an unrecognized operator, or a failed numeric coercion
of the value all return the input table unchanged. -/
def applyFilter (df : Table) (column operator : Option String) (value : Option Cell) : Table :=
  match column, operator, value with
  | some col, some op, some v =>
    if col = "" ∨ op = "" then df
    else
      match df.findHeader col with
      | none => df
      | some h =>
        if h.dtype = Dtype.numeric then
          match pyFloat v with
          | none => df
          | some nv =>
            match numPred op nv with
            | none => df
            | some p => df.filterRows col p
        else
          match strPred op (pyStr v) with
          | none => df
          | some p => df.filterRows col p
  | _, _, _ => df

/-- pd.to_numeric with errors=coerce on one cell: numbers pass, numeric
strings parse, everything else becomes missing. -/
def toNumericCoerce : Cell → Option ℚ
  | Cell.num q => some q
  | Cell.str s => parseRat s
  | Cell.missing => none

/-- The cleaned numeric value list that get_histogram and get_boxplot
compute: dropna, then, for a column whose dtype is not numeric, a
to_numeric coercion followed by another dropna. -/
def numericSeries (dt : Dtype) (cells : List Cell) : List ℚ :=
  if dt = Dtype.numeric then (dropna cells).filterMap cellToNum
  else (dropna cells).filterMap toNumericCoerce

/-- Minimum of a rational list (0 on the empty list, unused there). -/
def listMin : List ℚ → ℚ
  | [] => 0
  | x :: r => r.foldl min x

/-- Maximum of a rational list (0 on the empty list, unused there). -/
def listMax : List ℚ → ℚ
  | [] => 0
  | x :: r => r.foldl max x

/-- np.histogram with an integral bins argument: b equal-width bins over
the range [min, max] of the data, the range widened by one half on each
side when min equals max; returns the b+1 bin edges and the per-bin
counts, the right edge being inclusive only for the last bin. -/
def npHistogram (xs : List ℚ) (b : ℕ) : List ℚ × List ℕ :=
  if xs = [] then ([], [])
  else
    let lo0 := listMin xs
    let hi0 := listMax xs
    let lo := if lo0 = hi0 then lo0 - 1/2 else lo0
    let hi := if lo0 = hi0 then hi0 + 1/2 else hi0
    let idx : ℚ → ℕ := fun q => min ((⌊(q - lo) * (b : ℚ) / (hi - lo)⌋).toNat) (b - 1)
    ((List.range (b + 1)).map (fun i : ℕ => lo + (hi - lo) * (i : ℚ) / (b : ℚ)),
     (List.range b).map (fun j => xs.countP (fun q => decide (idx q = j))))

/-- The single-quote character, for error message fidelity. -/
def singleQuote : String := String.singleton (Char.ofNat 39)

/-- The not-numeric error message of get_histogram and get_boxplot. -/
def notNumericMsg (col : String) : String :=
  "Column " ++ singleQuote ++ col ++ singleQuote ++ " is not numeric"

/-- Payload of get_histogram. -/
structure HistogramResult where
  column : String
  bins : List ℚ
  counts : List ℕ
deriving DecidableEq, Repr

/-- The cleaned numeric series get_histogram and get_boxplot work on,
for a named column of a (filtered) table. -/
def histSeries (df : Table) (col : String) : List ℚ :=
  match df.findHeader col with
  | none => []
  | some h => numericSeries h.dtype (df.series col)

/-- get_histogram from dataset_visualizer. -/
def getHistogram (df : Table) (column : String) (bins : ℕ)
    (fc fo : Option String) (fv : Option Cell) : Except String HistogramResult :=
  let d := applyFilter df fc fo fv
  match d.findHeader column with
  | none => Except.error ("Column not found: " ++ column)
  | some h =>
    let s := numericSeries h.dtype (d.series column)
    if h.dtype ≠ Dtype.numeric ∧ s = [] then Except.error (notNumericMsg column)
    else if s = [] then Except.ok ⟨column, [], []⟩
    else Except.ok ⟨column, (npHistogram s bins).1, (npHistogram s bins).2⟩

/-- Linear-interpolation quantile of pandas (Series.quantile, default
interpolation): index position q*(n-1) into the sorted values,
interpolating between the two neighbouring order statistics. -/
def quantileLinear (xs : List ℚ) (q : ℚ) : ℚ :=
  let s := List.insertionSort (fun a b : ℚ => a ≤ b) xs
  let pos := q * ((s.length : ℚ) - 1)
  let frac := pos - (⌊pos⌋ : ℚ)
  match s.get? (⌊pos⌋).toNat, s.get? ((⌊pos⌋).toNat + 1) with
  | some a, some b => a + (b - a) * frac
  | some a, none => a
  | none, _ => 0

/-- Five-number summary plus mean of get_boxplot. -/
structure BoxStats where
  bmin : ℚ
  q1 : ℚ
  median : ℚ
  q3 : ℚ
  bmax : ℚ
  mean : ℚ
deriving DecidableEq, Repr

/-- Payload of get_boxplot. -/
structure BoxplotResult where
  column : String
  stats : Option BoxStats
  outliers : List ℚ
deriving DecidableEq, Repr

/-- get_boxplot from dataset_visualizer: quartiles by linear
interpolation, IQR fences at 1.5 IQR, outliers strictly outside. -/
def getBoxplot (df : Table) (column : String)
    (fc fo : Option String) (fv : Option Cell) : Except String BoxplotResult :=
  let d := applyFilter df fc fo fv
  match d.findHeader column with
  | none => Except.error ("Column not found: " ++ column)
  | some h =>
    let s := numericSeries h.dtype (d.series column)
    if h.dtype ≠ Dtype.numeric ∧ s = [] then Except.error (notNumericMsg column)
    else if s = [] then Except.ok ⟨column, none, []⟩
    else
      let q1 := quantileLinear s (1/4)
      let q3 := quantileLinear s (3/4)
      let iqr := q3 - q1
      let lowerBound := q1 - (3/2) * iqr
      let upperBound := q3 + (3/2) * iqr
      Except.ok ⟨column,
        some ⟨listMin s, q1, quantileLinear s (1/2), q3, listMax s, s.sum / (s.length : ℚ)⟩,
        s.filter (fun x => decide (x < lowerBound) || decide (upperBound < x))⟩

/-- Symbolic value of one Pearson correlation cell: the real number
num / sqrt den2, kept in exact integer-free rational form (num is the
co-moment n*sxy - sx*sy and den2 the product of the two variance terms
n*sxx - sx^2 and n*syy - sy^2), so that the float computation of
pandas DataFrame.corr is modelled without square roots.  den2 is
positive whenever the value is defined. -/
structure CorrRepr where
  num : ℚ
  den2 : ℚ
deriving DecidableEq, Repr

/-- The represented correlation equals exactly 1.0: a positive numerator
whose square is den2, since num / sqrt den2 = 1 iff num > 0 and
num^2 = den2. -/
def CorrRepr.repOne (e : CorrRepr) : Prop := 0 < e.num ∧ e.num ^ 2 = e.den2

/-- The variance co-moment n * sum of squares - square of sum of a value
list; zero exactly when the values are all equal. -/
def dxOf (l : List ℚ) : ℚ :=
  (l.length : ℚ) * (l.map (fun x => x ^ 2)).sum - l.sum ^ 2

/-- Pearson correlation of paired values, in symbolic form; none models
the NaN that pandas produces when either variance term vanishes
(constant column or fewer than two common observations). -/
def pearsonRepr (ps : List (ℚ × ℚ)) : Option CorrRepr :=
  let xs := ps.map Prod.fst
  let ys := ps.map Prod.snd
  let dx := dxOf xs
  let dy := dxOf ys
  if dx = 0 ∨ dy = 0 then none
  else some ⟨(ps.length : ℚ) * (ps.map (fun p => p.1 * p.2)).sum - xs.sum * ys.sum, dx * dy⟩

/-- The pairwise-complete observations of two columns: positions where
both cells hold numbers (pandas corr drops incomplete pairs). -/
def commonPairs : List Cell → List Cell → List (ℚ × ℚ)
  | Cell.num a :: xs, Cell.num b :: ys => (a, b) :: commonPairs xs ys
  | _ :: xs, _ :: ys => commonPairs xs ys
  | _, _ => []

/-- The numeric-dtype column names of a table, in order
(df.select_dtypes(include=[np.number]).columns). -/
def numericColNames (df : Table) : List String :=
  (df.headers.filter (fun h => decide (h.dtype = Dtype.numeric))).map Header.name

/-- The numeric values of a cell list, missing cells dropped. -/
def numVals (cells : List Cell) : List ℚ :=
  cells.filterMap cellToNum

/-- Payload of get_correlation. -/
structure CorrelationResult where
  columns : List String
  matrix : List (List (Option CorrRepr))
deriving DecidableEq, Repr

/-- get_correlation from dataset_visualizer: restrict to numeric-dtype
columns; when the numeric sub-frame is empty (no rows or no numeric
columns) or has fewer than two columns, return an empty matrix;
otherwise the full Pearson matrix with NaN entries mapped to none. -/
def getCorrelation (df : Table) (fc fo : Option String) (fv : Option Cell) : CorrelationResult :=
  let d := applyFilter df fc fo fv
  let numCols := numericColNames d
  let frameEmpty := d.rows.length = 0 ∨ numCols = []
  if frameEmpty ∨ numCols.length < 2 then
    ⟨if frameEmpty then [] else numCols, []⟩
  else
    ⟨numCols, numCols.map (fun a => numCols.map (fun b =>
      pearsonRepr (commonPairs (d.series a) (d.series b))))⟩

/-- Total order used to model the sorted group keys of pivot_table
(numbers before text; missing keys are dropped before sorting). -/
def cellLeB : Cell → Cell → Bool
  | Cell.num a, Cell.num b => decide (a ≤ b)
  | Cell.num _, _ => true
  | Cell.str a, Cell.str b => decide (a ≤ b)
  | Cell.str _, Cell.num _ => false
  | Cell.str _, Cell.missing => true
  | Cell.missing, Cell.missing => true
  | Cell.missing, _ => false

/-- Distinct keys of a cell list in the sorted order pivot_table uses. -/
def sortedKeys (l : List Cell) : List Cell :=
  List.insertionSort (fun a b => cellLeB a b = true) l.dedup

/-- One named series of a stacked-bar or area payload. -/
structure SeriesData where
  name : String
  values : List ℚ
deriving DecidableEq, Repr

/-- Payload of get_stacked_bar; stackKeys models the stacks field of the
source payload (renamed because stacks is a reserved word here). -/
structure StackedBarResult where
  category_column : String
  stack_column : String
  value_column : Option String
  categories : List String
  stackKeys : List String
  data : List SeriesData
deriving DecidableEq, Repr

/-- get_stacked_bar from dataset_visualizer: validates the category and
stack columns, then pivots category x stack to summed values when
value_col is supplied, truthy and present, and to row counts otherwise
(a supplied but absent value_col silently selects the count branch).
Rows with a missing grouping key are dropped, as pivot_table does; the
sum skips missing values. -/
def getStackedBar (df : Table) (categoryCol stackCol : String) (valueCol : Option String)
    (fc fo : Option String) (fv : Option Cell) : Except String StackedBarResult :=
  let d := applyFilter df fc fo fv
  if (d.findHeader categoryCol).isNone then Except.error ("Column not found: " ++ categoryCol)
  else if (d.findHeader stackCol).isNone then Except.error ("Column not found: " ++ stackCol)
  else
    let ci := d.colIdx categoryCol
    let si := d.colIdx stackCol
    let valid := d.rows.filter (fun r =>
      decide (r.getD ci Cell.missing ≠ Cell.missing) && decide (r.getD si Cell.missing ≠ Cell.missing))
    let cats := sortedKeys (valid.map (fun r => r.getD ci Cell.missing))
    let stks := sortedKeys (valid.map (fun r => r.getD si Cell.missing))
    let vIdx : Option ℕ :=
      match valueCol with
      | some v => if v ≠ "" ∧ (d.findHeader v).isSome then some (d.colIdx v) else none
      | none => none
    let cellVal : Cell → Cell → ℚ := fun c s =>
      let group := valid.filter (fun r =>
        decide (r.getD ci Cell.missing = c) && decide (r.getD si Cell.missing = s))
      match vIdx with
      | some vi => ((group.map (fun r => r.getD vi Cell.missing)).filterMap cellToNum).sum
      | none => (group.length : ℚ)
    Except.ok
      { category_column := categoryCol
        stack_column := stackCol
        value_column := valueCol
        categories := cats.map pyStr
        stackKeys := stks.map pyStr
        data := stks.map (fun s => ⟨pyStr s, cats.map (fun c => cellVal c s)⟩) }

/-- Whether pd.to_datetime accepts one non-missing object cell, given an
abstract recognizer p for date-like strings (numbers always parse, as
epoch offsets). -/
def cellDateOk (p : String → Bool) : Cell → Bool
  | Cell.num _ => true
  | Cell.str s => p s
  | Cell.missing => true

/-- The _detect_column_type helper shared verbatim by quick_analyzer and
dataset_profiler: numeric dtype is numeric, datetime dtype is datetime,
an object column whose first 100 non-missing values all parse as dates
is datetime, other object and category columns are categorical, every
remaining dtype is unknown.  The date recognizer p is a parameter; an
empty sample parses vacuously, as pd.to_datetime of an empty sequence
succeeds. -/
def detectColumnType (p : String → Bool) (dt : Dtype) (cells : List Cell) : String :=
  match dt with
  | Dtype.numeric => "numeric"
  | Dtype.datetime => "datetime"
  | Dtype.object =>
    if ((dropna cells).take 100).all (cellDateOk p) then "datetime" else "categorical"
  | Dtype.category => "categorical"
  | Dtype.other => "unknown"

/-- Python round to nearest integer with ties to even (banker rounding),
over exact rationals. -/
def roundHalfEven (q : ℚ) : ℤ :=
  if q - (⌊q⌋ : ℚ) < 1/2 then ⌊q⌋
  else if (1 : ℚ)/2 < q - (⌊q⌋ : ℚ) then ⌊q⌋ + 1
  else if ⌊q⌋ % 2 = 0 then ⌊q⌋ else ⌊q⌋ + 1

/-- Python round(x, 2) over exact rationals. -/
def round2 (q : ℚ) : ℚ := (roundHalfEven (q * 100) : ℚ) / 100

/-- Python round(x, 4) over exact rationals. -/
def round4 (q : ℚ) : ℚ := (roundHalfEven (q * 10000) : ℚ) / 10000

/-- Outlier count and percentage of _compute_outliers_iqr. -/
structure OutlierStats where
  outlier_count : ℕ
  outlier_percentage : ℚ
deriving DecidableEq, Repr

/-- _compute_outliers_iqr from quick_analyzer: IQR fences over the
non-missing values of a numeric column. -/
def computeOutliersIqr (cells : List Cell) : OutlierStats :=
  let clean := cells.filterMap cellToNum
  if clean = [] then ⟨0, 0⟩
  else
    let q1 := quantileLinear clean (1/4)
    let q3 := quantileLinear clean (3/4)
    let iqr := q3 - q1
    let lowerBound := q1 - (3/2) * iqr
    let upperBound := q3 + (3/2) * iqr
    let oc := (clean.filter (fun x => decide (x < lowerBound) || decide (upperBound < x))).length
    ⟨oc, round2 ((oc : ℚ) / (clean.length : ℚ) * 100)⟩

/-- Average of a rational list (division by zero yields 0 in ℚ, but the
source only divides by nonzero lengths). -/
def listAvg (l : List ℚ) : ℚ := l.sum / (l.length : ℚ)

/-- Result of _compute_ml_readiness. -/
structure MlReadiness where
  readiness_score : ℤ
  readiness_level : String
deriving DecidableEq, Repr

/-- _compute_ml_readiness from quick_analyzer: start at 100, subtract
the three capped penalties, round to the nearest integer (ties to even,
as Python round), clamp to [0, 100], and map to a level. -/
def computeMlReadiness (missingPercentages : List ℚ) (duplicateRows totalRows : ℕ)
    (outlierPercentages : List ℚ) : MlReadiness :=
  let s1 : ℚ := 100 -
    (if missingPercentages ≠ [] then min (listAvg missingPercentages * (1/2)) 30 else 0)
  let s2 : ℚ := s1 -
    (if 0 < totalRows then min ((duplicateRows : ℚ) / (totalRows : ℚ) * 100 * (3/10)) 15 else 0)
  let s3 : ℚ := s2 -
    (if outlierPercentages ≠ [] then min (listAvg outlierPercentages * (1/5)) 10 else 0)
  let score := max 0 (min 100 (roundHalfEven s3))
  ⟨score, if 80 ≤ score then "High" else if 50 ≤ score then "Moderate" else "Low"⟩

/-- Per-column missing-data record of quick_analyze_dataframe. -/
structure MissingColInfo where
  column : String
  missing_count : ℕ
  missing_percentage : ℚ
deriving DecidableEq, Repr

/-- The missing_data_insights dict passed to compute_data_quality_score. -/
structure MissingData where
  columns : List MissingColInfo
  columns_above_30_percent_missing : List String
deriving DecidableEq, Repr

/-- One issue entry of the data-quality assessment (the human-readable
message text of the source is informational only and omitted here). -/
structure QualityIssue where
  itype : String
  severity : String
  affected_columns : List String
deriving DecidableEq, Repr

/-- Result of compute_data_quality_score. -/
structure QualityResult where
  overall_score : ℤ
  level : String
  issues : List QualityIssue
deriving DecidableEq, Repr

/-- compute_data_quality_score from gemini_analyzer: capped penalties
for columns with more than 30 percent missing, columns with strictly
more than 10 and at most 30 percent missing, a duplicate-row share over
5 percent, and columns with more than 5 percent outliers; the result is
rounded (ties to even), clamped to [0, 100] and mapped to a level. -/
def computeDataQualityScore (missingData : MissingData) (duplicateRows totalRows : ℕ)
    (outlierDetection : List (String × OutlierStats)) : QualityResult :=
  let highMissing := missingData.columns_above_30_percent_missing
  let i1 : List QualityIssue :=
    if highMissing ≠ [] then
      [⟨"missing_data", if 2 < highMissing.length then "critical" else "warning", highMissing⟩]
    else []
  let p1 : ℚ := if highMissing ≠ [] then min ((highMissing.length : ℚ) * 10) 30 else 0
  let moderate := (missingData.columns.filter (fun c =>
    decide (10 < c.missing_percentage) && decide (c.missing_percentage ≤ 30))).map MissingColInfo.column
  let i2 : List QualityIssue := if moderate ≠ [] then [⟨"missing_data", "info", moderate⟩] else []
  let p2 : ℚ := if moderate ≠ [] then min ((moderate.length : ℚ) * 3) 15 else 0
  let dupPct : ℚ := (duplicateRows : ℚ) / (totalRows : ℚ) * 100
  let i3 : List QualityIssue :=
    if 0 < totalRows ∧ 5 < dupPct then
      [⟨"duplicates", if dupPct ≤ 20 then "warning" else "critical", []⟩]
    else []
  let p3 : ℚ := if 0 < totalRows ∧ 5 < dupPct then min dupPct 20 else 0
  let highOutliers := (outlierDetection.filter (fun o =>
    decide (5 < o.2.outlier_percentage))).map Prod.fst
  let i4 : List QualityIssue := if highOutliers ≠ [] then [⟨"outliers", "info", highOutliers⟩] else []
  let p4 : ℚ := if highOutliers ≠ [] then min ((highOutliers.length : ℚ) * 2) 10 else 0
  let score := max 0 (min 100 (roundHalfEven (100 - p1 - p2 - p3 - p4)))
  ⟨score,
   if 80 ≤ score then "Good"
   else if 60 ≤ score then "Fair"
   else if 40 ≤ score then "Needs Work"
   else "Poor",
   i1 ++ i2 ++ i3 ++ i4⟩

/-- One correlation record as quick_analyze_dataframe hands it to the
scatter recommender. -/
structure CorrInfo where
  column_a : String
  column_b : String
  correlation : Option ℚ
deriving DecidableEq, Repr

/-- One scatter-plot recommendation. -/
structure ScatterRec where
  x : String
  y : String
  correlation : ℚ
  insight : String
deriving DecidableEq, Repr

/-- The if/elif label chain of compute_scatter_recommendations, applied
under the abs-at-least-0.1 guard.  Note the strict comparisons: a value
of exactly 0.1 falls through every branch to the weak negative label. -/
def scatterLabel (c : ℚ) : String :=
  if 7/10 < c then "Strong positive correlation"
  else if 3/10 < c then "Moderate positive correlation"
  else if 1/10 < c then "Weak positive correlation"
  else if c < -(7/10) then "Strong negative correlation"
  else if c < -(3/10) then "Moderate negative correlation"
  else "Weak negative correlation"

/-- Descending order on the absolute rounded correlation, the sort key
of compute_scatter_recommendations. -/
def scatterGe (a b : ScatterRec) : Prop := |b.correlation| ≤ |a.correlation|

instance : DecidableRel scatterGe := fun a b =>
  inferInstanceAs (Decidable (|b.correlation| ≤ |a.correlation|))

instance : IsTotal ScatterRec scatterGe := ⟨fun a b => le_total |b.correlation| |a.correlation|⟩

instance : IsTrans ScatterRec scatterGe := ⟨fun _ _ _ h1 h2 => le_trans h2 h1⟩

/-- itertools.combinations(l, 2): ordered pairs with increasing index. -/
def pairCombos : List String → List (String × String)
  | [] => []
  | x :: rest => rest.map (fun y => (x, y)) ++ pairCombos rest

/-- The correlation-based recommendation list compute_scatter_recommendations
builds before sorting: the correlations of absolute value at least 0.1,
each labelled and rounded to four places. -/
def qualifyingRecs (correlations : List CorrInfo) : List ScatterRec :=
  correlations.filterMap (fun c =>
    match c.correlation with
    | none => none
    | some v =>
      if 1/10 ≤ |v| then some ⟨c.column_a, c.column_b, round4 v, scatterLabel v⟩
      else none)

/-- compute_scatter_recommendations continued: the qualifying list is
sorted stably by absolute value descending, with the fallback and the
final truncation to five. -/
def computeScatterRecommendations (numericColumns : List String)
    (correlations : List CorrInfo) : List ScatterRec :=
  let sorted := List.insertionSort scatterGe (qualifyingRecs correlations)
  let out :=
    if sorted = [] ∧ 2 ≤ numericColumns.length then
      ((pairCombos (numericColumns.take 4)).take 5).map
        (fun p => ⟨p.1, p.2, 0, "Explore relationship"⟩)
    else sorted
  out.take 5

/-- Count of rows equal to some earlier row (df.duplicated().sum()). -/
def dupCountAux : List (List Cell) → List (List Cell) → ℕ
  | _, [] => 0
  | seen, r :: rest => (if r ∈ seen then 1 else 0) + dupCountAux (r :: seen) rest

/-- duplicated-row count of a row list. -/
def duplicatedCount (rows : List (List Cell)) : ℕ := dupCountAux [] rows

/-- The part of the quick_analyze_dataframe report the claims refer to:
overview, missing-data insights, outlier detection and ML readiness.
The chart payloads, scatter recommendations and data-quality assessment
of the full report are the separately embedded aggregators applied to
these fields. -/
structure QuickReport where
  row_count : ℕ
  column_count : ℕ
  numeric_columns : List String
  categorical_columns : List String
  datetime_columns : List String
  duplicate_rows : ℕ
  missing_columns : List MissingColInfo
  columns_above_30_percent_missing : List String
  outlier_detection : List (String × OutlierStats)
  ml_readiness : MlReadiness
deriving DecidableEq, Repr

/-- Steps 1, 2, 5 and 6 of quick_analyze_dataframe from quick_analyzer:
column classification, per-column missing rates (0.0 for every column
of a 0-row table), per-numeric-column IQR outlier stats, and the ML
readiness score computed from them. -/
def quickAnalyze (p : String → Bool) (df : Table) : QuickReport :=
  let rowCount := df.rows.length
  let classOf : Header → String := fun h => detectColumnType p h.dtype (df.series h.name)
  let numericCols := (df.headers.filter (fun h => decide (classOf h = "numeric"))).map Header.name
  let categoricalCols :=
    (df.headers.filter (fun h => decide (classOf h = "categorical"))).map Header.name
  let datetimeCols := (df.headers.filter (fun h => decide (classOf h = "datetime"))).map Header.name
  let missingCols := df.headers.map (fun h =>
    let mc := ((df.series h.name).filter (fun c => decide (c = Cell.missing))).length
    ⟨h.name, mc, if 0 < rowCount then round2 ((mc : ℚ) / (rowCount : ℚ) * 100) else 0⟩)
  let above30 :=
    (missingCols.filter (fun c => decide (30 < c.missing_percentage))).map MissingColInfo.column
  let outlierDetection := numericCols.map (fun name => (name, computeOutliersIqr (df.series name)))
  { row_count := rowCount
    column_count := df.headers.length
    numeric_columns := numericCols
    categorical_columns := categoricalCols
    datetime_columns := datetimeCols
    duplicate_rows := duplicatedCount df.rows
    missing_columns := missingCols
    columns_above_30_percent_missing := above30
    outlier_detection := outlierDetection
    ml_readiness := computeMlReadiness (missingCols.map MissingColInfo.missing_percentage)
      (duplicatedCount df.rows) rowCount
      (outlierDetection.map (fun o => o.2.outlier_percentage)) }

/-- The scenario table of the spec: age [25, 30, NaN, 40] and
city [A, B, A, C]. -/
def exampleDf : Table :=
  ⟨[⟨"age", Dtype.numeric⟩, ⟨"city", Dtype.object⟩],
   [[Cell.num 25, Cell.str "A"],
    [Cell.num 30, Cell.str "B"],
    [Cell.missing, Cell.str "A"],
    [Cell.num 40, Cell.str "C"]]⟩

/-- A one-value numeric column, for the constant-column histogram case. -/
def constDf : Table := ⟨[⟨"a", Dtype.numeric⟩], [[Cell.num 5]]⟩

/-- A small table with category and stack columns but no value column. -/
def stackDf : Table :=
  ⟨[⟨"cat", Dtype.object⟩, ⟨"stk", Dtype.object⟩], [[Cell.str "a", Cell.str "x"]]⟩

/-- A numeric column with one clear IQR outlier. -/
def boxDf : Table :=
  ⟨[⟨"v", Dtype.numeric⟩],
   [[Cell.num 1], [Cell.num 2], [Cell.num 3], [Cell.num 4], [Cell.num 100]]⟩

/-- The boxplot payload of boxDf: quartiles 2 and 4, fences -1 and 7,
one outlier. -/
def boxResult : BoxplotResult := ⟨"v", some ⟨1, 2, 3, 4, 100, 22⟩, [100]⟩

/-- Two numeric columns, the second constant (zero variance). -/
def corrDf : Table :=
  ⟨[⟨"a", Dtype.numeric⟩, ⟨"b", Dtype.numeric⟩],
   [[Cell.num 1, Cell.num 5], [Cell.num 2, Cell.num 5]]⟩

/-- Boundary input for the data-quality scorer: one column with exactly
10 percent missing and a duplicate share of 7.5 percent. -/
def boundaryMissingData : MissingData := ⟨[⟨"a", 4, 10⟩], []⟩

/-- Series.value_counts: occurrence counts of the non-missing values,
distinct values in first-appearance order, then sorted by count
descending; the sort is stable, so ties keep first-appearance order. -/
def valueCounts (cells : List Cell) : List (Cell × ℕ) :=
  List.insertionSort (fun a b => b.2 ≤ a.2)
    (((dropna cells).dedup).map (fun c =>
      (c, (dropna cells).countP (fun x => decide (x = c)))))

/-- Payload of get_bar_counts. -/
structure BarResult where
  column : String
  categories : List String
  counts : List ℕ
deriving DecidableEq, Repr

/-- get_bar_counts from dataset_visualizer: frequency counts of the
non-missing values of one column. -/
def getBarCounts (df : Table) (column : String)
    (fc fo : Option String) (fv : Option Cell) : Except String BarResult :=
  let d := applyFilter df fc fo fv
  match d.findHeader column with
  | none => Except.error ("Column not found: " ++ column)
  | some _ =>
    let vc := valueCounts (d.series column)
    Except.ok ⟨column, vc.map (fun p => pyStr p.1), vc.map (fun p => p.2)⟩

/-- Payload of get_pie_data. -/
structure PieResult where
  column : String
  categories : List String
  values : List ℚ
deriving DecidableEq, Repr

/-- get_pie_data from dataset_visualizer: value counts with the top
limit - 1 categories kept and the remainder summed into an Other
bucket when there are more than limit distinct values. -/
def getPieData (df : Table) (column : String) (limit : ℕ)
    (fc fo : Option String) (fv : Option Cell) : Except String PieResult :=
  let d := applyFilter df fc fo fv
  match d.findHeader column with
  | none => Except.error ("Column not found: " ++ column)
  | some _ =>
    let vc := valueCounts (d.series column)
    if limit < vc.length then
      let top := vc.take (limit - 1)
      Except.ok ⟨column, top.map (fun p => pyStr p.1) ++ ["Other"],
        top.map (fun p => (p.2 : ℚ)) ++ [(((vc.drop (limit - 1)).map Prod.snd).sum : ℚ)]⟩
    else
      Except.ok ⟨column, vc.map (fun p => pyStr p.1), vc.map (fun p => (p.2 : ℚ))⟩

/-- Payload of get_scatter. -/
structure ScatterResult where
  x_label : String
  y_label : String
  x : List ℚ
  y : List ℚ
deriving DecidableEq, Repr

/-- get_scatter from dataset_visualizer: the paired values of two
columns after dropping rows where either is missing, coercing both to
numbers, and dropping rows where either coercion fails. -/
def getScatter (df : Table) (x y : String)
    (fc fo : Option String) (fv : Option Cell) : Except String ScatterResult :=
  let d := applyFilter df fc fo fv
  if (d.findHeader x).isNone then Except.error ("Column not found: " ++ x)
  else if (d.findHeader y).isNone then Except.error ("Column not found: " ++ y)
  else
    let xi := d.colIdx x
    let yi := d.colIdx y
    let present := (d.rows.map (fun r => (r.getD xi Cell.missing, r.getD yi Cell.missing))).filter
      (fun p => decide (p.1 ≠ Cell.missing) && decide (p.2 ≠ Cell.missing))
    let nums := present.filterMap (fun p =>
      match toNumericCoerce p.1, toNumericCoerce p.2 with
      | some a, some b => some (a, b)
      | _, _ => none)
    Except.ok ⟨x, y, nums.map Prod.fst, nums.map Prod.snd⟩

/-- One date point of a line series. -/
structure LinePoint where
  date : String
  value : ℚ
deriving DecidableEq, Repr

/-- One named series of the grouped line payload. -/
structure LineSeries where
  name : String
  data : List LinePoint
deriving DecidableEq, Repr

/-- Payload of get_line_data: a single series when no (usable) group
column is given, one series per group value otherwise. -/
inductive LineResult where
  | single (date_column value_column : String) (data : List LinePoint)
  | multi (date_column value_column : String) (series : List LineSeries)
deriving DecidableEq, Repr

/-- Lexicographic order on date-and-key pairs, as the groupby of
get_line_data sorts its keys. -/
def dateKeyLe (a b : ℤ × Cell) : Prop :=
  a.1 < b.1 ∨ (a.1 = b.1 ∧ cellLeB a.2 b.2 = true)

instance : DecidableRel dateKeyLe := fun a b =>
  inferInstanceAs (Decidable (a.1 < b.1 ∨ (a.1 = b.1 ∧ cellLeB a.2 b.2 = true)))

/-- get_line_data from dataset_visualizer, parametrized by an abstract
per-cell model dparse of pd.to_datetime with errors=coerce (dates as
integer timestamps) and a renderer diso of Timestamp.isoformat.  Rows
with an unparsable date or a missing value are dropped; the value sums
skip non-numeric cells, as in the stacked-bar embedding.  A falsy or
absent group_col, including one supplied but not a column of the
table, takes the single-series path. -/
def getLineData (dparse : Cell → Option ℤ) (diso : ℤ → String) (df : Table)
    (dateCol valueCol : String) (groupCol : Option String)
    (fc fo : Option String) (fv : Option Cell) : Except String LineResult :=
  let d := applyFilter df fc fo fv
  if (d.findHeader dateCol).isNone then Except.error ("Column not found: " ++ dateCol)
  else if (d.findHeader valueCol).isNone then Except.error ("Column not found: " ++ valueCol)
  else
    let di := d.colIdx dateCol
    let vi := d.colIdx valueCol
    let valid := d.rows.filterMap (fun r =>
      match dparse (r.getD di Cell.missing) with
      | some t => if r.getD vi Cell.missing ≠ Cell.missing then some (t, r) else none
      | none => none)
    let useGroup : Option ℕ :=
      match groupCol with
      | some g => if g ≠ "" ∧ (d.findHeader g).isSome then some (d.colIdx g) else none
      | none => none
    match useGroup with
    | some gi =>
      let gvalid := valid.filter (fun p => decide (p.2.getD gi Cell.missing ≠ Cell.missing))
      let keys := List.insertionSort dateKeyLe
        ((gvalid.map (fun p => (p.1, p.2.getD gi Cell.missing))).dedup)
      let groups := (keys.map Prod.snd).dedup
      Except.ok (LineResult.multi dateCol valueCol (groups.map (fun g =>
        ⟨pyStr g,
         (keys.filter (fun k => decide (k.2 = g))).map (fun k =>
           ⟨diso k.1,
            (((gvalid.filter (fun p =>
                decide (p.1 = k.1) && decide (p.2.getD gi Cell.missing = g))).map
              (fun p => p.2.getD vi Cell.missing)).filterMap cellToNum).sum⟩)⟩)))
    | none =>
      let dates := List.insertionSort (fun a b : ℤ => a ≤ b) ((valid.map Prod.fst).dedup)
      Except.ok (LineResult.single dateCol valueCol (dates.map (fun t =>
        ⟨diso t,
         (((valid.filter (fun p => decide (p.1 = t))).map
           (fun p => p.2.getD vi Cell.missing)).filterMap cellToNum).sum⟩)))

/-- Payload of get_area_data. -/
structure AreaResult where
  date_column : String
  value_column : String
  stack_column : String
  dates : List String
  series : List SeriesData
deriving DecidableEq, Repr

/-- get_area_data from dataset_visualizer: the date-by-stack pivot of
summed values (missing combinations 0), dates ascending, using the
same abstract date model as get_line_data.  Rows with an unparsable
date or missing value are dropped, and the pivot drops rows with a
missing stack key. -/
def getAreaData (dparse : Cell → Option ℤ) (diso : ℤ → String) (df : Table)
    (dateCol valueCol stackCol : String)
    (fc fo : Option String) (fv : Option Cell) : Except String AreaResult :=
  let d := applyFilter df fc fo fv
  if (d.findHeader dateCol).isNone then Except.error ("Column not found: " ++ dateCol)
  else if (d.findHeader valueCol).isNone then Except.error ("Column not found: " ++ valueCol)
  else if (d.findHeader stackCol).isNone then Except.error ("Column not found: " ++ stackCol)
  else
    let di := d.colIdx dateCol
    let vi := d.colIdx valueCol
    let si := d.colIdx stackCol
    let valid := d.rows.filterMap (fun r =>
      match dparse (r.getD di Cell.missing) with
      | some t => if r.getD vi Cell.missing ≠ Cell.missing then some (t, r) else none
      | none => none)
    let pvalid := valid.filter (fun p => decide (p.2.getD si Cell.missing ≠ Cell.missing))
    let dates := List.insertionSort (fun a b : ℤ => a ≤ b) ((pvalid.map Prod.fst).dedup)
    let stks := sortedKeys (pvalid.map (fun p => p.2.getD si Cell.missing))
    Except.ok ⟨dateCol, valueCol, stackCol, dates.map diso,
      stks.map (fun s2 =>
        ⟨pyStr s2, dates.map (fun t =>
          (((pvalid.filter (fun p =>
              decide (p.1 = t) && decide (p.2.getD si Cell.missing = s2))).map
            (fun p => p.2.getD vi Cell.missing)).filterMap cellToNum).sum)⟩)⟩

/-- One node of the treemap payload. -/
structure TreemapNode where
  path : List String
  value : ℚ
deriving DecidableEq, Repr

/-- Payload of get_treemap_data. -/
structure TreemapResult where
  group_columns : List String
  value_column : String
  nodes : List TreemapNode
deriving DecidableEq, Repr

/-- Lexicographic order on grouping-key tuples, as the multi-column
groupby of get_treemap_data sorts its keys. -/
def cellListLeB : List Cell → List Cell → Bool
  | [], _ => true
  | _ :: _, [] => false
  | a :: as2, b :: bs => if a = b then cellListLeB as2 bs else cellLeB a b

/-- get_treemap_data from dataset_visualizer: every group column is
validated in order, then the value column; rows with a missing
grouping key are dropped by groupby, and each group key tuple becomes
one node with its stringified path and summed value. -/
def getTreemapData (df : Table) (groupCols : List String) (valueCol : String)
    (fc fo : Option String) (fv : Option Cell) : Except String TreemapResult :=
  let d := applyFilter df fc fo fv
  match groupCols.find? (fun c => (d.findHeader c).isNone) with
  | some c => Except.error ("Column not found: " ++ c)
  | none =>
    if (d.findHeader valueCol).isNone then Except.error ("Column not found: " ++ valueCol)
    else
      let keyOf : List Cell → List Cell := fun r =>
        groupCols.map (fun c => r.getD (d.colIdx c) Cell.missing)
      let valid := d.rows.filter (fun r => (keyOf r).all (fun c => decide (c ≠ Cell.missing)))
      let keys := List.insertionSort (fun a b => cellListLeB a b = true)
        ((valid.map keyOf).dedup)
      Except.ok ⟨groupCols, valueCol,
        keys.map (fun k =>
          ⟨k.map pyStr,
           (((valid.filter (fun r => decide (keyOf r = k))).map
             (fun r => r.getD (d.colIdx valueCol) Cell.missing)).filterMap cellToNum).sum⟩)⟩

/-!  Theorems.  Helper lemmas come first, then one theorem per claim
(with its counterexample and witness where applicable). -/

theorem numPred_eq_none {op : String} (v : ℚ)
    (h1 : op ≠ ">") (h2 : op ≠ "<") (h3 : op ≠ ">=") (h4 : op ≠ "<=")
    (h5 : op ≠ "==") (h6 : op ≠ "!=") : numPred op v = none := by
  simp [numPred, h1, h2, h3, h4, h5, h6]

theorem strPred_eq_none {op : String} (sv : String)
    (h1 : op ≠ ">") (h2 : op ≠ "<") (h3 : op ≠ ">=") (h4 : op ≠ "<=")
    (h5 : op ≠ "==") (h6 : op ≠ "!=") (h7 : op ≠ "contains") : strPred op sv = none := by
  simp [strPred, h1, h2, h3, h4, h5, h6, h7]

/-- C10: for every input table and every combination of filter
arguments, apply_filter keeps the headers unchanged and returns a
subsequence of the input rows: every output row is an input row, kept
at most as often as it occurs, in the original relative order. -/
theorem applyFilter_row_subsequence (df : Table) (c o : Option String) (v : Option Cell) :
    (applyFilter df c o v).headers = df.headers ∧
    (applyFilter df c o v).rows.Sublist df.rows := by
  unfold applyFilter Table.filterRows
  repeat' split
  all_goals
    first
      | exact ⟨rfl, List.Sublist.refl _⟩
      | exact ⟨rfl, List.filter_sublist _⟩

/-- C2: apply_filter returns the input table unchanged in every
degenerate case: a missing column, operator or value argument; a named
column absent from the table; an unrecognized operator; and, for a
numeric column, a filter value whose numeric coercion fails.  Being a
total function of type Table, it raises nothing. -/
theorem applyFilter_degenerate_identity (df : Table) (c o : Option String) (v : Option Cell) :
    (c = none → applyFilter df c o v = df) ∧
    (o = none → applyFilter df c o v = df) ∧
    (v = none → applyFilter df c o v = df) ∧
    (∀ col, c = some col → df.findHeader col = none → applyFilter df c o v = df) ∧
    (∀ op, o = some op →
      op ∉ ([">", "<", ">=", "<=", "==", "!=", "contains"] : List String) →
      applyFilter df c o v = df) ∧
    (∀ col op val h, c = some col → o = some op → v = some val →
      df.findHeader col = some h → h.dtype = Dtype.numeric → pyFloat val = none →
      applyFilter df c o v = df) := by
  refine ⟨?_, ?_, ?_, ?_, ?_, ?_⟩
  · rintro rfl; rfl
  · rintro rfl; rcases c with _ | col <;> rfl
  · rintro rfl; rcases c with _ | col <;> rcases o with _ | op <;> rfl
  · rintro col rfl hf
    rcases o with _ | op
    · rfl
    rcases v with _ | val
    · rfl
    simp only [applyFilter]
    split
    · rfl
    · rw [hf]
  · rintro op rfl hop
    have e1 : op ≠ ">" := fun e => hop (by simp [e])
    have e2 : op ≠ "<" := fun e => hop (by simp [e])
    have e3 : op ≠ ">=" := fun e => hop (by simp [e])
    have e4 : op ≠ "<=" := fun e => hop (by simp [e])
    have e5 : op ≠ "==" := fun e => hop (by simp [e])
    have e6 : op ≠ "!=" := fun e => hop (by simp [e])
    have e7 : op ≠ "contains" := fun e => hop (by simp [e])
    rcases c with _ | col
    · rfl
    rcases v with _ | val
    · rfl
    simp only [applyFilter]
    split
    · rfl
    split
    · rfl
    split
    · split
      · rfl
      · rw [numPred_eq_none _ e1 e2 e3 e4 e5 e6]
    · rw [strPred_eq_none _ e1 e2 e3 e4 e5 e6 e7]
  · rintro col op val h rfl rfl rfl hf hd hpf
    simp only [applyFilter]
    split
    · rfl
    rw [hf]
    simp only [hd, if_pos, hpf]

/-- Witness for C2 at a concrete table: a failing numeric coercion, an
absent column and an unknown operator each leave the table unchanged. -/
theorem applyFilter_degenerate_identity_witness :
    applyFilter boxDf (some "v") (some ">") (some (Cell.str "abc")) = boxDf ∧
    applyFilter boxDf (some "zz") (some ">") (some (Cell.num 1)) = boxDf ∧
    applyFilter boxDf (some "v") (some "between") (some (Cell.num 1)) = boxDf := by
  refine ⟨?_, ?_, ?_⟩
  · exact (applyFilter_degenerate_identity boxDf _ _ _).2.2.2.2.2 "v" ">" (Cell.str "abc")
      ⟨"v", Dtype.numeric⟩ rfl rfl rfl (by decide) rfl (by decide)
  · exact (applyFilter_degenerate_identity boxDf _ _ _).2.2.2.1 "zz" rfl (by decide)
  · exact (applyFilter_degenerate_identity boxDf _ _ _).2.2.2.2.1 "between" rfl (by decide)

/-- C9 counterexample: a numeric-dtype column whose cells are all
missing is classified numeric, not unknown or categorical, so the claim
that an all-missing column is never numeric fails on the code. -/
theorem detect_all_missing_counterexample :
    detectColumnType (fun _ => false) Dtype.numeric [Cell.missing] = "numeric" ∧
    dropna [Cell.missing] = [] ∧
    ("numeric" : String) ≠ "unknown" ∧ ("numeric" : String) ≠ "categorical" := by
  refine ⟨rfl, rfl, by decide, by decide⟩

/-- C9 amended: a column with zero non-missing values is classified
deterministically by its storage dtype alone, independent of the date
recognizer: numeric dtype gives numeric, datetime dtype gives datetime,
object dtype gives datetime (the empty sample parses vacuously),
category gives categorical and anything else gives unknown. -/
theorem detect_all_missing_by_dtype (p : String → Bool) (dt : Dtype) (cells : List Cell)
    (h : ∀ c ∈ cells, c = Cell.missing) :
    detectColumnType p dt cells =
      (match dt with
       | Dtype.numeric => "numeric"
       | Dtype.datetime => "datetime"
       | Dtype.object => "datetime"
       | Dtype.category => "categorical"
       | Dtype.other => "unknown") := by
  have hd : dropna cells = [] := by
    rw [dropna, List.filter_eq_nil_iff]
    intro a ha
    simp [h a ha]
  cases dt <;> simp [detectColumnType, hd]

/-- Witness for C9 at a concrete column: an all-missing object column is
classified datetime even by a recognizer that accepts nothing. -/
theorem detect_all_missing_by_dtype_witness :
    detectColumnType (fun _ => false) Dtype.object [Cell.missing, Cell.missing] = "datetime" := by
  have h := detect_all_missing_by_dtype (fun _ => false) Dtype.object
    [Cell.missing, Cell.missing] (by decide)
  simpa using h

/-- C7 counterexample: with one column at exactly 10 percent missing and
a 7.5 percent duplicate share, the code scores 92 (the 10 percent
column is not penalized and the fractional score is rounded), while the
claimed formula gives 100 - 3 - 7.5 = 89.5. -/
theorem dataQuality_boundary_counterexample :
    (computeDataQualityScore boundaryMissingData 3 40 []).overall_score = 92 ∧
    ((92 : ℚ) ≠ 100 - 3 - 15/2) := by
  constructor
  · norm_num [computeDataQualityScore, boundaryMissingData, roundHalfEven, min_def, max_def]
  · norm_num

/-- C7 amended: the Data-Quality score starts at 100 and subtracts, each
independently capped: 10 points per column listed as over 30 percent
missing capped at 30, 3 points per column with strictly more than 10
and at most 30 percent missing (exactly 10 percent is not counted)
capped at 15, min(dup_pct, 20) when the duplicate-row percentage
exceeds 5, and 2 points per column with more than 5 percent outliers
capped at 10; the result is rounded to the nearest integer (ties to
even) and clamped to [0, 100], and maps to Good at 80 or above, Fair at
60, Needs Work at 40, Poor otherwise. -/
theorem dataQuality_score_formula (md : MissingData) (dup tot : ℕ)
    (od : List (String × OutlierStats)) :
    (computeDataQualityScore md dup tot od).overall_score =
      max 0 (min 100 (roundHalfEven (100
        - (if md.columns_above_30_percent_missing ≠ [] then
             min ((md.columns_above_30_percent_missing.length : ℚ) * 10) 30 else 0)
        - (if ((md.columns.filter (fun c =>
                 decide (10 < c.missing_percentage) && decide (c.missing_percentage ≤ 30))).map
                 MissingColInfo.column) ≠ []
           then min
             ((((md.columns.filter (fun c =>
                 decide (10 < c.missing_percentage) && decide (c.missing_percentage ≤ 30))).map
                 MissingColInfo.column).length : ℚ)
               * 3) 15
           else 0)
        - (if 0 < tot ∧ 5 < (dup : ℚ) / (tot : ℚ) * 100 then
             min ((dup : ℚ) / (tot : ℚ) * 100) 20 else 0)
        - (if ((od.filter (fun o => decide (5 < o.2.outlier_percentage))).map Prod.fst) ≠ [] then
             min ((((od.filter (fun o =>
               decide (5 < o.2.outlier_percentage))).map Prod.fst).length : ℚ) * 2) 10
           else 0)))) ∧
    0 ≤ (computeDataQualityScore md dup tot od).overall_score ∧
    (computeDataQualityScore md dup tot od).overall_score ≤ 100 ∧
    (computeDataQualityScore md dup tot od).level =
      (if 80 ≤ (computeDataQualityScore md dup tot od).overall_score then "Good"
       else if 60 ≤ (computeDataQualityScore md dup tot od).overall_score then "Fair"
       else if 40 ≤ (computeDataQualityScore md dup tot od).overall_score then "Needs Work"
       else "Poor") := by
  refine ⟨?_, ?_, ?_, ?_⟩
  · simp only [computeDataQualityScore]
  · exact le_max_left 0 _
  · exact max_le (by norm_num) (min_le_left 100 _)
  · simp only [computeDataQualityScore]

theorem cappedAvgPenalty_zero (l : List ℚ) (c cap : ℚ) (hcap : 0 ≤ cap)
    (h : ∀ x ∈ l, x = 0) :
    (if l ≠ [] then min (listAvg l * c) cap else 0) = 0 := by
  by_cases hl : l = []
  · simp [hl]
  · have hs : l.sum = 0 := List.sum_eq_zero h
    simp [hl, listAvg, hs, min_eq_left hcap]

theorem computeMlReadiness_zero_inputs (mp op : List ℚ) (dup : ℕ)
    (hmp : ∀ x ∈ mp, x = 0) (hop : ∀ x ∈ op, x = 0) :
    computeMlReadiness mp dup 0 op = ⟨100, "High"⟩ := by
  unfold computeMlReadiness
  rw [cappedAvgPenalty_zero mp (1/2) 30 (by norm_num) hmp,
    cappedAvgPenalty_zero op (1/5) 10 (by norm_num) hop]
  norm_num [roundHalfEven]

/-- C6 counterexample: with one column at 41 percent missing the code
rounds 79.5 up to 80 and reports level High, while the claimed formula
value 79.5 is not 80 and would map to Moderate. -/
theorem mlReadiness_rounding_counterexample :
    (computeMlReadiness [41] 0 1 []).readiness_score = 80 ∧
    (computeMlReadiness [41] 0 1 []).readiness_level = "High" ∧
    (100 - min ((41 : ℚ) * (1/2)) 30 = 159/2) ∧
    ¬(80 ≤ (159/2 : ℚ)) ∧ (159/2 : ℚ) ≠ 80 := by
  refine ⟨?_, ?_, by norm_num [min_def], by norm_num, by norm_num⟩
  · norm_num [computeMlReadiness, listAvg, roundHalfEven, min_def, max_def]
  · norm_num [computeMlReadiness, listAvg, roundHalfEven, min_def, max_def]

/-- C6 amended: the ML-Readiness score starts at 100, subtracts the
three capped penalties, rounds to the nearest integer (ties to even, as
Python round) and clamps to [0, 100], staying in [0, 100], with level
High at 80 or above, Moderate at 50, Low otherwise; and on an empty
table (0 rows) the quick analyzer reports row_count 0, missing
percentage 0.0 for every column, and an ML-readiness of 100 High, with
no division by zero. -/
theorem mlReadiness_formula_and_empty_table :
    (∀ (mp : List ℚ) (dup tot : ℕ) (op : List ℚ),
      (computeMlReadiness mp dup tot op).readiness_score =
        max 0 (min 100 (roundHalfEven (100
          - (if mp ≠ [] then min (listAvg mp * (1/2)) 30 else 0)
          - (if 0 < tot then min ((dup : ℚ) / (tot : ℚ) * 100 * (3/10)) 15 else 0)
          - (if op ≠ [] then min (listAvg op * (1/5)) 10 else 0)))) ∧
      0 ≤ (computeMlReadiness mp dup tot op).readiness_score ∧
      (computeMlReadiness mp dup tot op).readiness_score ≤ 100 ∧
      (computeMlReadiness mp dup tot op).readiness_level =
        (if 80 ≤ (computeMlReadiness mp dup tot op).readiness_score then "High"
         else if 50 ≤ (computeMlReadiness mp dup tot op).readiness_score then "Moderate"
         else "Low")) ∧
    (∀ (hs : List Header) (p : String → Bool),
      (quickAnalyze p ⟨hs, []⟩).row_count = 0 ∧
      (quickAnalyze p ⟨hs, []⟩).missing_columns = hs.map (fun h => ⟨h.name, 0, 0⟩) ∧
      (quickAnalyze p ⟨hs, []⟩).ml_readiness.readiness_score = 100 ∧
      (quickAnalyze p ⟨hs, []⟩).ml_readiness.readiness_level = "High") := by
  constructor
  · intro mp dup tot op
    refine ⟨?_, le_max_left 0 _, max_le (by norm_num) (min_le_left 100 _), ?_⟩
    · simp only [computeMlReadiness]
    · simp only [computeMlReadiness]
  · intro hs p
    have hml : (quickAnalyze p ⟨hs, []⟩).ml_readiness = ⟨100, "High"⟩ := by
      show computeMlReadiness _ _ _ _ = _
      apply computeMlReadiness_zero_inputs
      · intro x hx
        simp only [List.mem_map] at hx
        obtain ⟨m, ⟨h, _, rfl⟩, rfl⟩ := hx
        rfl
      · intro x hx
        simp only [List.mem_map] at hx
        obtain ⟨m, ⟨name, _, rfl⟩, rfl⟩ := hx
        rfl
    exact ⟨rfl, rfl, by rw [hml], by rw [hml]⟩

theorem qualifyingRecs_tenth :
    qualifyingRecs [⟨"a", "b", some (1/10)⟩] =
      [⟨"a", "b", 1/10, "Weak negative correlation"⟩] := by
  have habs : |(1 : ℚ)/10| = 1/10 := abs_of_pos (by norm_num)
  simp only [qualifyingRecs, List.filterMap_cons, List.filterMap_nil, habs]
  norm_num [round4, roundHalfEven, scatterLabel]

/-- C8 counterexample: a correlation of exactly 0.1 qualifies (abs at
least 0.1) but falls through every strict label branch and is labelled
Weak negative correlation although it is positive. -/
theorem scatter_boundary_label_counterexample :
    computeScatterRecommendations ["a", "b"] [⟨"a", "b", some (1/10)⟩] =
      [⟨"a", "b", 1/10, "Weak negative correlation"⟩] ∧
    (0 : ℚ) < 1/10 := by
  constructor
  · rw [computeScatterRecommendations, qualifyingRecs_tenth]
    simp [List.insertionSort, List.orderedInsert]
  · norm_num

theorem sorted_explore_pairs (l : List (String × String)) :
    List.Sorted scatterGe
      (l.map (fun p => (⟨p.1, p.2, 0, "Explore relationship"⟩ : ScatterRec))) := by
  induction l with
  | nil => simp
  | cons a t ih =>
    simp only [List.map_cons]
    refine List.Pairwise.cons (fun b hb => ?_) ih
    simp only [List.mem_map] at hb
    obtain ⟨p, _, rfl⟩ := hb
    simp [scatterGe]

theorem qualifyingRecs_one :
    qualifyingRecs [⟨"a", "b", some 1⟩] =
      [⟨"a", "b", 1, "Strong positive correlation"⟩] := by
  simp only [qualifyingRecs, List.filterMap_cons, List.filterMap_nil, abs_one]
  norm_num [round4, roundHalfEven, scatterLabel]

/-- C8 amended: the recommender keeps exactly the correlations of
absolute value at least 0.1, sorts them by absolute value descending
and truncates to five, falling back to the pairwise combinations of the
first four numeric columns when none qualify; the label is chosen by
the strict chain (positive labels need r strictly above the threshold,
and every leftover qualifying value, including exactly 0.1, is labelled
Weak negative); two identical numeric columns give the Strong positive
label at correlation 1. -/
theorem scatterRecommendations_amended :
    (∀ (cols : List String) (corrs : List CorrInfo),
      (computeScatterRecommendations cols corrs).length ≤ 5 ∧
      List.Sorted scatterGe (computeScatterRecommendations cols corrs) ∧
      (qualifyingRecs corrs ≠ [] →
        computeScatterRecommendations cols corrs =
          (List.insertionSort scatterGe (qualifyingRecs corrs)).take 5 ∧
        (List.insertionSort scatterGe (qualifyingRecs corrs)).Perm (qualifyingRecs corrs)) ∧
      (qualifyingRecs corrs = [] → 2 ≤ cols.length →
        computeScatterRecommendations cols corrs =
          ((pairCombos (cols.take 4)).take 5).map
            (fun p => ⟨p.1, p.2, 0, "Explore relationship"⟩)) ∧
      (∀ c ∈ corrs, ∀ v, c.correlation = some v → 1/10 ≤ |v| →
        (⟨c.column_a, c.column_b, round4 v, scatterLabel v⟩ : ScatterRec) ∈
          qualifyingRecs corrs) ∧
      (∀ r ∈ qualifyingRecs corrs, ∃ c ∈ corrs, ∃ v, c.correlation = some v ∧ 1/10 ≤ |v| ∧
        r = ⟨c.column_a, c.column_b, round4 v, scatterLabel v⟩)) ∧
    (∀ v : ℚ,
      (7/10 < v → scatterLabel v = "Strong positive correlation") ∧
      (3/10 < v → v ≤ 7/10 → scatterLabel v = "Moderate positive correlation") ∧
      (1/10 < v → v ≤ 3/10 → scatterLabel v = "Weak positive correlation") ∧
      (v < -(7/10) → scatterLabel v = "Strong negative correlation") ∧
      (-(7/10) ≤ v → v < -(3/10) → scatterLabel v = "Moderate negative correlation") ∧
      (-(3/10) ≤ v → v ≤ 1/10 → scatterLabel v = "Weak negative correlation")) ∧
    computeScatterRecommendations ["a", "b"] [⟨"a", "b", some 1⟩] =
      [⟨"a", "b", 1, "Strong positive correlation"⟩] := by
  refine ⟨?_, ?_, ?_⟩
  · intro cols corrs
    refine ⟨?_, ?_, ?_, ?_, ?_, ?_⟩
    · simp only [computeScatterRecommendations]
      rw [List.length_take]
      exact min_le_left _ _
    · simp only [computeScatterRecommendations]
      refine List.Pairwise.sublist (List.take_sublist _ _) ?_
      split
      · exact sorted_explore_pairs _
      · exact List.sorted_insertionSort scatterGe _
    · intro hne
      have hs : List.insertionSort scatterGe (qualifyingRecs corrs) ≠ [] := by
        intro he
        have hp := List.perm_insertionSort scatterGe (qualifyingRecs corrs)
        rw [he] at hp
        exact hne hp.symm.eq_nil
      constructor
      · simp only [computeScatterRecommendations]
        rw [if_neg (fun hc => hs hc.1)]
      · exact List.perm_insertionSort scatterGe _
    · intro hq hlen
      simp only [computeScatterRecommendations]
      rw [hq]
      rw [if_pos ⟨by simp [List.insertionSort], hlen⟩]
      rw [List.take_of_length_le]
      rw [List.length_map, List.length_take]
      exact min_le_left _ _
    · intro c hc v hv hge
      rw [qualifyingRecs, List.mem_filterMap]
      refine ⟨c, hc, ?_⟩
      rw [hv]
      exact if_pos hge
    · intro r hr
      rw [qualifyingRecs, List.mem_filterMap] at hr
      obtain ⟨c, hc, hfc⟩ := hr
      split at hfc
      · exact absurd hfc (by simp)
      · rename_i v hcv
        split at hfc
        · rename_i hge
          exact ⟨c, hc, v, hcv, hge, (Option.some.inj hfc).symm⟩
        · exact absurd hfc (by simp)
  · intro v
    refine ⟨?_, ?_, ?_, ?_, ?_, ?_⟩
    · intro h1
      simp only [scatterLabel]
      rw [if_pos h1]
    · intro h1 h2
      simp only [scatterLabel]
      rw [if_neg (not_lt.mpr h2), if_pos h1]
    · intro h1 h2
      simp only [scatterLabel]
      rw [if_neg (not_lt.mpr (by linarith : v ≤ 7/10)), if_neg (not_lt.mpr h2), if_pos h1]
    · intro h1
      simp only [scatterLabel]
      rw [if_neg (not_lt.mpr (by linarith : v ≤ 7/10)),
        if_neg (not_lt.mpr (by linarith : v ≤ 3/10)),
        if_neg (not_lt.mpr (by linarith : v ≤ 1/10)), if_pos h1]
    · intro h1 h2
      simp only [scatterLabel]
      rw [if_neg (not_lt.mpr (by linarith : v ≤ 7/10)),
        if_neg (not_lt.mpr (by linarith : v ≤ 3/10)),
        if_neg (not_lt.mpr (by linarith : v ≤ 1/10)),
        if_neg (not_lt.mpr h1), if_pos h2]
    · intro h1 h2
      simp only [scatterLabel]
      rw [if_neg (not_lt.mpr (by linarith : v ≤ 7/10)),
        if_neg (not_lt.mpr (by linarith : v ≤ 3/10)),
        if_neg (not_lt.mpr h2),
        if_neg (not_lt.mpr (by linarith : -(7/10) ≤ v)), if_neg (not_lt.mpr h1)]
  · rw [computeScatterRecommendations, qualifyingRecs_one]
    simp [List.insertionSort, List.orderedInsert]

/-- Witness for C8 at concrete inputs: the identical-columns correlation
1 takes the sort-and-truncate path, and the strict chain labels values
above 0.7 Strong positive. -/
theorem scatterRecommendations_amended_witness :
    computeScatterRecommendations ["a", "b"] [⟨"a", "b", some 1⟩] =
      (List.insertionSort scatterGe (qualifyingRecs [⟨"a", "b", some 1⟩])).take 5 ∧
    scatterLabel 1 = "Strong positive correlation" := by
  constructor
  · exact ((scatterRecommendations_amended.1 ["a", "b"] [⟨"a", "b", some 1⟩]).2.2.1
      (by rw [qualifyingRecs_one]; simp)).1
  · exact (scatterRecommendations_amended.2.1 1).1 (by norm_num)

/-- C1 counterexample: get_stacked_bar with a supplied but absent
value_col does not fail; it returns the row-count pivot (here one row
in the single category and stack), keeping the absent name in the
payload. -/
theorem stackedBar_absent_value_col_counterexample :
    getStackedBar stackDf "cat" "stk" (some "val") none none none =
      Except.ok ⟨"cat", "stk", some "val", ["a"], ["x"], [⟨"x", [1]⟩]⟩ ∧
    stackDf.findHeader "val" = none := by
  constructor
  · rfl
  · rfl

/-- C1 amended: in every chart aggregator, every required column
selector that does not match a column of the filtered table fails with
a Column not found error naming the missing column (get_correlation
takes no selectors); the two optional selectors are tolerated silently
when supplied but absent: the value_col of get_stacked_bar falls back
to the row-count pivot, only echoing the supplied name in the payload,
and the group_col of get_line_data falls back to the single-series
path, as if it had been omitted. -/
theorem aggregator_column_not_found (dparse : Cell → Option ℤ) (diso : ℤ → String)
    (df : Table) (fc fo : Option String) (fv : Option Cell) :
    (∀ col b, (applyFilter df fc fo fv).findHeader col = none →
      getHistogram df col b fc fo fv = Except.error ("Column not found: " ++ col)) ∧
    (∀ col, (applyFilter df fc fo fv).findHeader col = none →
      getBoxplot df col fc fo fv = Except.error ("Column not found: " ++ col)) ∧
    (∀ col, (applyFilter df fc fo fv).findHeader col = none →
      getBarCounts df col fc fo fv = Except.error ("Column not found: " ++ col)) ∧
    (∀ col lim, (applyFilter df fc fo fv).findHeader col = none →
      getPieData df col lim fc fo fv = Except.error ("Column not found: " ++ col)) ∧
    (∀ x y, (applyFilter df fc fo fv).findHeader x = none →
      getScatter df x y fc fo fv = Except.error ("Column not found: " ++ x)) ∧
    (∀ x y, (applyFilter df fc fo fv).findHeader x ≠ none →
      (applyFilter df fc fo fv).findHeader y = none →
      getScatter df x y fc fo fv = Except.error ("Column not found: " ++ y)) ∧
    (∀ dc vc g, (applyFilter df fc fo fv).findHeader dc = none →
      getLineData dparse diso df dc vc g fc fo fv =
        Except.error ("Column not found: " ++ dc)) ∧
    (∀ dc vc g, (applyFilter df fc fo fv).findHeader dc ≠ none →
      (applyFilter df fc fo fv).findHeader vc = none →
      getLineData dparse diso df dc vc g fc fo fv =
        Except.error ("Column not found: " ++ vc)) ∧
    (∀ dc vc sc, (applyFilter df fc fo fv).findHeader dc = none →
      getAreaData dparse diso df dc vc sc fc fo fv =
        Except.error ("Column not found: " ++ dc)) ∧
    (∀ dc vc sc, (applyFilter df fc fo fv).findHeader dc ≠ none →
      (applyFilter df fc fo fv).findHeader vc = none →
      getAreaData dparse diso df dc vc sc fc fo fv =
        Except.error ("Column not found: " ++ vc)) ∧
    (∀ dc vc sc, (applyFilter df fc fo fv).findHeader dc ≠ none →
      (applyFilter df fc fo fv).findHeader vc ≠ none →
      (applyFilter df fc fo fv).findHeader sc = none →
      getAreaData dparse diso df dc vc sc fc fo fv =
        Except.error ("Column not found: " ++ sc)) ∧
    (∀ gcols vcol badCol,
      gcols.find? (fun c => ((applyFilter df fc fo fv).findHeader c).isNone) = some badCol →
      getTreemapData df gcols vcol fc fo fv =
        Except.error ("Column not found: " ++ badCol)) ∧
    (∀ gcols vcol,
      gcols.find? (fun c => ((applyFilter df fc fo fv).findHeader c).isNone) = none →
      (applyFilter df fc fo fv).findHeader vcol = none →
      getTreemapData df gcols vcol fc fo fv =
        Except.error ("Column not found: " ++ vcol)) ∧
    (∀ cat stk v, (applyFilter df fc fo fv).findHeader cat = none →
      getStackedBar df cat stk v fc fo fv = Except.error ("Column not found: " ++ cat)) ∧
    (∀ cat stk v, (applyFilter df fc fo fv).findHeader cat ≠ none →
      (applyFilter df fc fo fv).findHeader stk = none →
      getStackedBar df cat stk v fc fo fv = Except.error ("Column not found: " ++ stk)) ∧
    (∀ cat stk v, v ≠ "" → (applyFilter df fc fo fv).findHeader v = none →
      getStackedBar df cat stk (some v) fc fo fv =
        (getStackedBar df cat stk none fc fo fv).map
          (fun r => { r with value_column := some v })) ∧
    (∀ dc vc g, g ≠ "" → (applyFilter df fc fo fv).findHeader g = none →
      getLineData dparse diso df dc vc (some g) fc fo fv =
        getLineData dparse diso df dc vc none fc fo fv) := by
  refine ⟨?_, ?_, ?_, ?_, ?_, ?_, ?_, ?_, ?_, ?_, ?_, ?_, ?_, ?_, ?_, ?_, ?_⟩
  · intro col b h
    simp only [getHistogram]
    rw [h]
  · intro col h
    simp only [getBoxplot]
    rw [h]
  · intro col h
    simp only [getBarCounts]
    rw [h]
  · intro col lim h
    simp only [getPieData]
    rw [h]
  · intro x y h
    simp [getScatter, h]
  · intro x y hne h
    simp only [getScatter]
    rw [if_neg (fun hc => hne (Option.isNone_iff_eq_none.mp hc))]
    rw [if_pos (by rw [h]; rfl)]
  · intro dc vc g h
    simp [getLineData, h]
  · intro dc vc g hne h
    simp only [getLineData]
    rw [if_neg (fun hc => hne (Option.isNone_iff_eq_none.mp hc))]
    rw [if_pos (by rw [h]; rfl)]
  · intro dc vc sc h
    simp [getAreaData, h]
  · intro dc vc sc hne h
    simp only [getAreaData]
    rw [if_neg (fun hc => hne (Option.isNone_iff_eq_none.mp hc))]
    rw [if_pos (by rw [h]; rfl)]
  · intro dc vc sc hne1 hne2 h
    simp only [getAreaData]
    rw [if_neg (fun hc => hne1 (Option.isNone_iff_eq_none.mp hc))]
    rw [if_neg (fun hc => hne2 (Option.isNone_iff_eq_none.mp hc))]
    rw [if_pos (by rw [h]; rfl)]
  · intro gcols vcol badCol h
    simp only [getTreemapData]
    rw [h]
  · intro gcols vcol hfind h
    simp only [getTreemapData]
    rw [hfind]
    rw [if_pos (by rw [h]; rfl)]
  · intro cat stk v h
    simp [getStackedBar, h]
  · intro cat stk v hne hs
    simp only [getStackedBar]
    rw [if_neg (fun hc => hne (Option.isNone_iff_eq_none.mp hc))]
    rw [if_pos (by rw [hs]; rfl)]
  · intro cat stk v hv hnone
    simp [getStackedBar, hnone, Except.map, hv]
    split
    · rfl
    · split
      · rfl
      · rfl
  · intro dc vc g hg hnone
    simp only [getLineData]
    split
    · rfl
    split
    · rfl
    simp [hnone, hg]

/-- Witness for C1 at a concrete table: an absent histogram column
raises the naming error, an absent stacked-bar value column takes the
count fallback, and an absent line group column takes the single-series
path. -/
theorem aggregator_column_not_found_witness :
    getHistogram stackDf "zzz" 10 none none none =
      Except.error ("Column not found: " ++ "zzz") ∧
    getStackedBar stackDf "cat" "stk" (some "val") none none none =
      (getStackedBar stackDf "cat" "stk" none none none none).map
        (fun r => { r with value_column := some "val" }) ∧
    getLineData (fun _ => some 0) (fun _ => "d") stackDf "cat" "stk" (some "zzz")
        none none none =
      getLineData (fun _ => some 0) (fun _ => "d") stackDf "cat" "stk" none
        none none none := by
  refine ⟨?_, ?_, ?_⟩
  · exact (aggregator_column_not_found (fun _ => some 0) (fun _ => "d")
      stackDf none none none).1 "zzz" 10 (by decide)
  · exact (aggregator_column_not_found (fun _ => some 0) (fun _ => "d")
      stackDf none none none).2.2.2.2.2.2.2.2.2.2.2.2.2.2.2.1 "cat" "stk" "val"
      (by decide) (by decide)
  · exact (aggregator_column_not_found (fun _ => some 0) (fun _ => "d")
      stackDf none none none).2.2.2.2.2.2.2.2.2.2.2.2.2.2.2.2 "cat" "stk" "zzz"
      (by decide) (by decide)

theorem sum_map_add_nat {α : Type} (l : List α) (f g : α → ℕ) :
    (l.map (fun x => f x + g x)).sum = (l.map f).sum + (l.map g).sum := by
  induction l with
  | nil => rfl
  | cons a t ih =>
    simp only [List.map_cons, List.sum_cons, ih]
    omega

theorem sum_ite_range (b k : ℕ) (hk : k < b) :
    ((List.range b).map (fun j => if k = j then 1 else 0)).sum = 1 := by
  induction b with
  | zero => omega
  | succ n ih =>
    rw [List.range_succ, List.map_append, List.sum_append]
    rcases Nat.lt_succ_iff_lt_or_eq.mp hk with h | h
    · rw [ih h]
      simp [Nat.ne_of_lt h]
    · subst h
      have hz : ((List.range k).map (fun j => if k = j then 1 else 0)).sum = 0 := by
        apply List.sum_eq_zero
        intro x hx
        simp only [List.mem_map] at hx
        obtain ⟨j, hj, rfl⟩ := hx
        rw [List.mem_range] at hj
        simp [Nat.ne_of_gt hj]
      rw [hz]
      simp

theorem sum_countP_range {α : Type} (xs : List α) (f : α → ℕ) (b : ℕ)
    (h : ∀ x ∈ xs, f x < b) :
    ((List.range b).map (fun j => xs.countP (fun x => decide (f x = j)))).sum = xs.length := by
  induction xs with
  | nil => simp
  | cons a t ih =>
    have ha : f a < b := h a (by simp)
    have ht : ∀ x ∈ t, f x < b := fun x hx => h x (by simp [hx])
    simp only [List.countP_cons, decide_eq_true_eq]
    rw [sum_map_add_nat]
    rw [ih ht, sum_ite_range b (f a) ha]
    simp [Nat.add_comm]

theorem edges_head_last (lo hi : ℚ) (b : ℕ) (hb : (b : ℚ) ≠ 0) :
    ((List.range (b + 1)).map (fun i : ℕ => lo + (hi - lo) * (i : ℚ) / (b : ℚ))).head? = some lo ∧
    ((List.range (b + 1)).map (fun i : ℕ => lo + (hi - lo) * (i : ℚ) / (b : ℚ))).getLast? = some hi := by
  constructor
  · rw [List.range_succ_eq_map]
    simp
  · have hr : (List.range (b + 1)).getLast? = some b := by
      rw [List.range_succ]
      exact List.getLast?_concat _
    rw [List.getLast?_map, hr]
    show some (lo + (hi - lo) * (b : ℚ) / (b : ℚ)) = some hi
    congr 1
    rw [mul_div_assoc, div_self hb, mul_one]
    ring

theorem npHistogram_spec (xs : List ℚ) (b : ℕ) (hx : xs ≠ []) (hb : 1 ≤ b) :
    (npHistogram xs b).1.length = b + 1 ∧
    (npHistogram xs b).2.length = b ∧
    (npHistogram xs b).2.sum = xs.length ∧
    (listMin xs ≠ listMax xs →
      (npHistogram xs b).1.head? = some (listMin xs) ∧
      (npHistogram xs b).1.getLast? = some (listMax xs)) ∧
    (listMin xs = listMax xs →
      (npHistogram xs b).1.head? = some (listMin xs - 1/2) ∧
      (npHistogram xs b).1.getLast? = some (listMax xs + 1/2)) := by
  have hbq : (b : ℚ) ≠ 0 := Nat.cast_ne_zero.mpr (by omega)
  refine ⟨?_, ?_, ?_, ?_, ?_⟩
  · simp [npHistogram, hx]
  · simp [npHistogram, hx]
  · simp only [npHistogram, if_neg hx]
    exact sum_countP_range xs _ b (fun x hx2 => lt_of_le_of_lt (min_le_right _ _) (by omega))
  · intro hne
    have h := edges_head_last (listMin xs) (listMax xs) b hbq
    simp only [npHistogram, if_neg hx, if_neg hne]
    exact h
  · intro heq
    have h := edges_head_last (listMin xs - 1/2) (listMax xs + 1/2) b hbq
    simp only [npHistogram, if_neg hx, if_pos heq]
    exact h

/-- C3 counterexample: on a constant numeric column (one value, 5) the
bin edges do not span [min, max] = [5, 5]; numpy widens the range by a
half on each side, so the first edge is 4.5. -/
theorem histogram_constant_column_counterexample :
    getHistogram constDf "a" 2 none none none =
      Except.ok ⟨"a", [9/2, 5, 11/2], [0, 1]⟩ ∧
    listMin [(5 : ℚ)] = 5 ∧ listMax [(5 : ℚ)] = 5 ∧ ((9/2 : ℚ) ≠ 5) := by
  refine ⟨?_, rfl, rfl, by norm_num⟩
  have h0 : getHistogram constDf "a" 2 none none none =
      Except.ok ⟨"a", (npHistogram [5] 2).1, (npHistogram [5] 2).2⟩ := rfl
  have hnp : npHistogram [5] 2 = ([9/2, 5, 11/2], [0, 1]) := by
    norm_num [npHistogram, listMin, listMax, List.range_succ, List.countP_cons, min_def]
  rw [h0, hnp]

/-- C3 amended: for a cleaned numeric series with at least one value
and at least one bin, get_histogram returns b+1 edges and b counts
summing to the number of values; the edges run from min to max when the
values are not all equal, and from min minus one half to max plus one
half when they are; an empty cleaned series of a numeric column yields
empty bins and counts; and on the spec scenario column age with two
bins the payload is bins [25, 32.5, 40] and counts [2, 1]. -/
theorem getHistogram_edges_counts :
    (∀ (df : Table) (col : String) (b : ℕ) (fc fo : Option String) (fv : Option Cell)
        (r : HistogramResult), 1 ≤ b →
      getHistogram df col b fc fo fv = Except.ok r →
      (histSeries (applyFilter df fc fo fv) col = [] → r.bins = [] ∧ r.counts = []) ∧
      (histSeries (applyFilter df fc fo fv) col ≠ [] →
        r.bins.length = b + 1 ∧
        r.counts.length = b ∧
        r.counts.sum = (histSeries (applyFilter df fc fo fv) col).length ∧
        (listMin (histSeries (applyFilter df fc fo fv) col) ≠
            listMax (histSeries (applyFilter df fc fo fv) col) →
          r.bins.head? = some (listMin (histSeries (applyFilter df fc fo fv) col)) ∧
          r.bins.getLast? = some (listMax (histSeries (applyFilter df fc fo fv) col))) ∧
        (listMin (histSeries (applyFilter df fc fo fv) col) =
            listMax (histSeries (applyFilter df fc fo fv) col) →
          r.bins.head? =
            some (listMin (histSeries (applyFilter df fc fo fv) col) - 1/2) ∧
          r.bins.getLast? =
            some (listMax (histSeries (applyFilter df fc fo fv) col) + 1/2)))) ∧
    getHistogram exampleDf "age" 2 none none none =
      Except.ok ⟨"age", [25, 65/2, 40], [2, 1]⟩ := by
  constructor
  · intro df col b fc fo fv r hb hok
    simp only [getHistogram] at hok
    rcases hf : (applyFilter df fc fo fv).findHeader col with _ | h
    · simp only [hf] at hok
      exact absurd hok (by simp)
    simp only [hf] at hok
    have hs : histSeries (applyFilter df fc fo fv) col =
        numericSeries h.dtype ((applyFilter df fc fo fv).series col) := by
      simp only [histSeries]
      rw [hf]
    by_cases hcond : h.dtype ≠ Dtype.numeric ∧
        numericSeries h.dtype ((applyFilter df fc fo fv).series col) = []
    · rw [if_pos hcond] at hok
      exact absurd hok (by simp)
    rw [if_neg hcond] at hok
    by_cases hemp : numericSeries h.dtype ((applyFilter df fc fo fv).series col) = []
    · rw [if_pos hemp] at hok
      have hr := Except.ok.inj hok
      subst hr
      refine ⟨fun _ => ⟨rfl, rfl⟩, fun hne => ?_⟩
      rw [hs] at hne
      exact absurd hemp hne
    · rw [if_neg hemp] at hok
      have hr := Except.ok.inj hok
      subst hr
      refine ⟨fun he => ?_, fun hne => ?_⟩
      · rw [hs] at he
        exact absurd he hemp
      · have hspec := npHistogram_spec
          (numericSeries h.dtype ((applyFilter df fc fo fv).series col)) b hemp hb
        rw [hs]
        exact hspec
  · have h0 : getHistogram exampleDf "age" 2 none none none =
        Except.ok ⟨"age", (npHistogram [25, 30, 40] 2).1, (npHistogram [25, 30, 40] 2).2⟩ := rfl
    have hnp : npHistogram [25, 30, 40] 2 = ([25, 65/2, 40], [2, 1]) := by
      norm_num [npHistogram, listMin, listMax, List.range_succ, List.countP_cons, min_def]
      all_goals (intro h2; simp at h2)
    rw [h0, hnp]

/-- Witness for C3 at the scenario table: three non-missing values give
three edges for two bins and counts summing to three. -/
theorem getHistogram_edges_counts_witness :
    histSeries (applyFilter exampleDf none none none) "age" = [25, 30, 40] ∧
    ([25, (65 : ℚ)/2, 40] : List ℚ).length = 2 + 1 ∧
    ([2, 1] : List ℕ).sum = (histSeries (applyFilter exampleDf none none none) "age").length := by
  have hser : histSeries (applyFilter exampleDf none none none) "age" = [25, 30, 40] := rfl
  have h := (getHistogram_edges_counts.1 exampleDf "age" 2 none none none
    ⟨"age", [25, 65/2, 40], [2, 1]⟩ (by norm_num) getHistogram_edges_counts.2).2
  have h2 := h (by rw [hser]; simp)
  exact ⟨hser, h2.1, h2.2.2.1⟩

/-- C4: get_boxplot computes the quartiles by linear interpolation,
fences at 1.5 IQR, and returns as outliers exactly the cleaned values
strictly outside the fences, so every cleaned value is either inside
the closed fence interval and not an outlier, or strictly outside and
an outlier, never both; an empty cleaned series gives stats none and no
outliers. -/
theorem getBoxplot_outlier_partition (df : Table) (col : String)
    (fc fo : Option String) (fv : Option Cell) (r : BoxplotResult)
    (hok : getBoxplot df col fc fo fv = Except.ok r) :
    (histSeries (applyFilter df fc fo fv) col = [] → r.stats = none ∧ r.outliers = []) ∧
    (histSeries (applyFilter df fc fo fv) col ≠ [] →
      ∃ st, r.stats = some st ∧
        st.q1 = quantileLinear (histSeries (applyFilter df fc fo fv) col) (1/4) ∧
        st.q3 = quantileLinear (histSeries (applyFilter df fc fo fv) col) (3/4) ∧
        (∀ x : ℚ, x ∈ r.outliers ↔
          x ∈ histSeries (applyFilter df fc fo fv) col ∧
            (x < st.q1 - (3/2) * (st.q3 - st.q1) ∨ st.q3 + (3/2) * (st.q3 - st.q1) < x)) ∧
        (∀ x ∈ histSeries (applyFilter df fc fo fv) col,
          (st.q1 - (3/2) * (st.q3 - st.q1) ≤ x ∧ x ≤ st.q3 + (3/2) * (st.q3 - st.q1) ∧
            x ∉ r.outliers) ∨
          ((x < st.q1 - (3/2) * (st.q3 - st.q1) ∨ st.q3 + (3/2) * (st.q3 - st.q1) < x) ∧
            x ∈ r.outliers))) := by
  simp only [getBoxplot] at hok
  rcases hf : (applyFilter df fc fo fv).findHeader col with _ | h
  · simp only [hf] at hok
    exact absurd hok (by simp)
  simp only [hf] at hok
  have hs : histSeries (applyFilter df fc fo fv) col =
      numericSeries h.dtype ((applyFilter df fc fo fv).series col) := by
    simp only [histSeries]
    rw [hf]
  rw [hs]
  by_cases hcond : h.dtype ≠ Dtype.numeric ∧
      numericSeries h.dtype ((applyFilter df fc fo fv).series col) = []
  · rw [if_pos hcond] at hok
    exact absurd hok (by simp)
  rw [if_neg hcond] at hok
  by_cases hemp : numericSeries h.dtype ((applyFilter df fc fo fv).series col) = []
  · rw [if_pos hemp] at hok
    have hr := Except.ok.inj hok
    subst hr
    exact ⟨fun _ => ⟨rfl, rfl⟩, fun hne => absurd hemp hne⟩
  · rw [if_neg hemp] at hok
    have hr := Except.ok.inj hok
    subst hr
    refine ⟨fun he => absurd he hemp, fun hne => ?_⟩
    refine ⟨_, rfl, rfl, rfl, ?_, ?_⟩
    · intro x
      rw [List.mem_filter]
      simp only [Bool.or_eq_true, decide_eq_true_eq]
    · intro x hx
      by_cases hlow : x < quantileLinear
          (numericSeries h.dtype ((applyFilter df fc fo fv).series col)) (1/4) -
          (3/2) * (quantileLinear (numericSeries h.dtype ((applyFilter df fc fo fv).series col))
            (3/4) -
          quantileLinear (numericSeries h.dtype ((applyFilter df fc fo fv).series col)) (1/4))
      · refine Or.inr ⟨Or.inl hlow, ?_⟩
        rw [List.mem_filter]
        simp only [Bool.or_eq_true, decide_eq_true_eq]
        exact ⟨hx, Or.inl hlow⟩
      by_cases hhigh : quantileLinear
          (numericSeries h.dtype ((applyFilter df fc fo fv).series col)) (3/4) +
          (3/2) * (quantileLinear (numericSeries h.dtype ((applyFilter df fc fo fv).series col))
            (3/4) -
          quantileLinear (numericSeries h.dtype ((applyFilter df fc fo fv).series col)) (1/4)) < x
      · refine Or.inr ⟨Or.inr hhigh, ?_⟩
        rw [List.mem_filter]
        simp only [Bool.or_eq_true, decide_eq_true_eq]
        exact ⟨hx, Or.inr hhigh⟩
      · refine Or.inl ⟨not_lt.mp hlow, not_lt.mp hhigh, ?_⟩
        rw [List.mem_filter]
        simp only [Bool.or_eq_true, decide_eq_true_eq]
        rintro ⟨-, hout | hout⟩
        · exact hlow hout
        · exact hhigh hout

/-- Witness for C4 at a concrete column [1, 2, 3, 4, 100]: quartiles 2
and 4, fences -1 and 7, with 100 an outlier and 1 inside the fences. -/
theorem getBoxplot_outlier_partition_witness :
    (100 : ℚ) ∈ boxResult.outliers ∧ (1 : ℚ) ∉ boxResult.outliers ∧
    boxResult.stats = some ⟨1, 2, 3, 4, 100, 22⟩ := by
  have hq1 : quantileLinear [(1:ℚ), 2, 3, 4, 100] (1/4) = 2 := by
    norm_num [quantileLinear, List.insertionSort, List.orderedInsert]
  have hq2 : quantileLinear [(1:ℚ), 2, 3, 4, 100] (1/2) = 3 := by
    norm_num [quantileLinear, List.insertionSort, List.orderedInsert]
    rfl
  have hq3 : quantileLinear [(1:ℚ), 2, 3, 4, 100] (3/4) = 4 := by
    norm_num [quantileLinear, List.insertionSort, List.orderedInsert]
    rfl
  have h0 : getBoxplot boxDf "v" none none none = Except.ok ⟨"v",
      some ⟨listMin [(1:ℚ), 2, 3, 4, 100],
        quantileLinear [(1:ℚ), 2, 3, 4, 100] (1/4),
        quantileLinear [(1:ℚ), 2, 3, 4, 100] (1/2),
        quantileLinear [(1:ℚ), 2, 3, 4, 100] (3/4),
        listMax [(1:ℚ), 2, 3, 4, 100],
        ([(1:ℚ), 2, 3, 4, 100]).sum / (([(1:ℚ), 2, 3, 4, 100]).length : ℚ)⟩,
      ([(1:ℚ), 2, 3, 4, 100]).filter (fun x =>
        decide (x < quantileLinear [(1:ℚ), 2, 3, 4, 100] (1/4) -
          (3/2) * (quantileLinear [(1:ℚ), 2, 3, 4, 100] (3/4) -
            quantileLinear [(1:ℚ), 2, 3, 4, 100] (1/4))) ||
        decide (quantileLinear [(1:ℚ), 2, 3, 4, 100] (3/4) +
          (3/2) * (quantileLinear [(1:ℚ), 2, 3, 4, 100] (3/4) -
            quantileLinear [(1:ℚ), 2, 3, 4, 100] (1/4)) < x))⟩ := rfl
  have hok : getBoxplot boxDf "v" none none none = Except.ok boxResult := by
    rw [h0]
    simp only [hq1, hq2, hq3]
    norm_num [boxResult, listMin, listMax, List.filter_cons, min_def, max_def]
  have h := (getBoxplot_outlier_partition boxDf "v" none none none boxResult hok).2
    (by decide)
  obtain ⟨st, hst, hsq1, hsq3, hiff, hpart⟩ := h
  obtain rfl : st = (⟨1, 2, 3, 4, 100, 22⟩ : BoxStats) :=
    (Option.some.inj ((rfl : boxResult.stats =
      some (⟨1, 2, 3, 4, 100, 22⟩ : BoxStats)).symm.trans hst)).symm
  refine ⟨?_, ?_, rfl⟩
  · refine (hiff 100).mpr ⟨?_, ?_⟩
    · decide
    · norm_num
  · intro hmem
    have h2 := (hiff 1).mp hmem
    rcases h2.2 with hlt | hgt
    · norm_num at hlt
    · norm_num at hgt

theorem sum_sq_affine (l : List ℚ) (a b : ℚ) :
    (l.map (fun x => (a * x - b) ^ 2)).sum =
      a ^ 2 * (l.map (fun x => x ^ 2)).sum - 2 * a * b * l.sum + (l.length : ℚ) * b ^ 2 := by
  induction l with
  | nil => simp
  | cons x t ih =>
    simp only [List.map_cons, List.sum_cons, ih, List.length_cons]
    push_cast
    ring

theorem dxOf_mul (l : List ℚ) :
    (l.map (fun x => ((l.length : ℚ) * x - l.sum) ^ 2)).sum = (l.length : ℚ) * dxOf l := by
  rw [sum_sq_affine l (l.length : ℚ) l.sum, dxOf]
  ring

theorem sum_nonneg_eq_zero {l : List ℚ} (hnn : ∀ x ∈ l, 0 ≤ x) (hz : l.sum = 0) :
    ∀ x ∈ l, x = 0 := by
  induction l with
  | nil => simp
  | cons a t ih =>
    have hta : 0 ≤ a := hnn a (by simp)
    have htn : ∀ x ∈ t, 0 ≤ x := fun x hx => hnn x (by simp [hx])
    have hts : 0 ≤ t.sum := List.sum_nonneg htn
    rw [List.sum_cons] at hz
    intro x hx
    rcases List.mem_cons.mp hx with rfl | hx2
    · linarith
    · exact ih htn (by linarith) x hx2

theorem dxOf_nonneg (l : List ℚ) : 0 ≤ dxOf l := by
  rcases l with _ | ⟨x, t⟩
  · simp [dxOf]
  · have hsum : 0 ≤ ((x :: t).map
        (fun y => (((x :: t).length : ℚ) * y - (x :: t).sum) ^ 2)).sum := by
      apply List.sum_nonneg
      intro y hy
      simp only [List.mem_map] at hy
      obtain ⟨z, _, rfl⟩ := hy
      positivity
    rw [dxOf_mul] at hsum
    have hn : (0 : ℚ) < ((x :: t).length : ℚ) := by
      rw [List.length_cons]
      push_cast
      positivity
    nlinarith

theorem dxOf_eq_zero_all_eq {l : List ℚ} (hz : dxOf l = 0) :
    ∀ x ∈ l, ∀ y ∈ l, x = y := by
  intro x hx y hy
  have hne : l ≠ [] := by
    intro he
    rw [he] at hx
    exact absurd hx (by simp)
  have hn : (0 : ℚ) < (l.length : ℚ) := by
    have := List.length_pos.mpr hne
    exact_mod_cast this
  have hall : ∀ z ∈ l.map (fun w => ((l.length : ℚ) * w - l.sum) ^ 2), z = 0 := by
    apply sum_nonneg_eq_zero
    · intro z hzz
      simp only [List.mem_map] at hzz
      obtain ⟨w, _, rfl⟩ := hzz
      positivity
    · rw [dxOf_mul, hz, mul_zero]
  have hx0 : ((l.length : ℚ) * x - l.sum) ^ 2 = 0 :=
    hall _ (List.mem_map.mpr ⟨x, hx, rfl⟩)
  have hy0 : ((l.length : ℚ) * y - l.sum) ^ 2 = 0 :=
    hall _ (List.mem_map.mpr ⟨y, hy, rfl⟩)
  have hx1 : (l.length : ℚ) * x = l.sum := by
    have := pow_eq_zero_iff (n := 2) (by omega) |>.mp hx0
    linarith
  have hy1 : (l.length : ℚ) * y = l.sum := by
    have := pow_eq_zero_iff (n := 2) (by omega) |>.mp hy0
    linarith
  exact mul_left_cancel₀ (ne_of_gt hn) (hx1.trans hy1.symm)

theorem sum_of_all_eq {l : List ℚ} {c : ℚ} (h : ∀ x ∈ l, x = c) :
    l.sum = (l.length : ℚ) * c := by
  induction l with
  | nil => simp
  | cons a t ih =>
    have ha := h a (by simp)
    have ht := ih (fun x hx => h x (by simp [hx]))
    simp only [List.sum_cons, ht, ha, List.length_cons]
    push_cast
    ring

theorem sumsq_of_all_eq {l : List ℚ} {c : ℚ} (h : ∀ x ∈ l, x = c) :
    (l.map (fun x => x ^ 2)).sum = (l.length : ℚ) * c ^ 2 := by
  induction l with
  | nil => simp
  | cons a t ih =>
    have ha := h a (by simp)
    have ht := ih (fun x hx => h x (by simp [hx]))
    simp only [List.map_cons, List.sum_cons, ht, ha, List.length_cons]
    push_cast
    ring

theorem dxOf_const {l : List ℚ} (h : ∀ x ∈ l, ∀ y ∈ l, x = y) : dxOf l = 0 := by
  rcases l with _ | ⟨a, t⟩
  · simp [dxOf]
  · have hc : ∀ x ∈ (a :: t), x = a := fun x hx => h x hx a (by simp)
    rw [dxOf, sum_of_all_eq hc, sumsq_of_all_eq hc]
    ring

theorem commonPairs_self (xs : List Cell) :
    commonPairs xs xs = (numVals xs).map (fun a => (a, a)) := by
  induction xs with
  | nil => rfl
  | cons c t ih => cases c <;> simp [commonPairs, numVals, cellToNum, ih]

theorem commonPairs_swap (xs ys : List Cell) :
    commonPairs ys xs = (commonPairs xs ys).map (fun p => (p.2, p.1)) := by
  induction xs generalizing ys with
  | nil =>
    cases ys with
    | nil => rfl
    | cons d u => cases d <;> rfl
  | cons c t ih =>
    cases ys with
    | nil => cases c <;> rfl
    | cons d u => cases c <;> cases d <;> simp [commonPairs, ih]

theorem commonPairs_mem_fst {xs ys : List Cell} {p : ℚ × ℚ}
    (h : p ∈ commonPairs xs ys) : p.1 ∈ numVals xs := by
  induction xs generalizing ys with
  | nil => cases ys <;> simp [commonPairs] at h
  | cons c t ih =>
    cases ys with
    | nil => cases c <;> simp [commonPairs] at h
    | cons d u =>
      cases c with
      | num a =>
        cases d with
        | num b =>
          rcases List.mem_cons.mp h with rfl | h2
          · exact List.mem_cons_self _ _
          · exact List.mem_cons_of_mem _ (ih h2)
        | missing => exact List.mem_cons_of_mem _ (ih h)
        | str s2 => exact List.mem_cons_of_mem _ (ih h)
      | missing => cases d <;> exact ih h
      | str s => cases d <;> exact ih h

theorem pearsonRepr_symm (xs ys : List Cell) :
    pearsonRepr (commonPairs ys xs) = pearsonRepr (commonPairs xs ys) := by
  rw [commonPairs_swap]
  simp only [pearsonRepr, List.map_map, List.length_map]
  have h1 : (Prod.fst ∘ fun p : ℚ × ℚ => (p.2, p.1)) = Prod.snd := rfl
  have h2 : (Prod.snd ∘ fun p : ℚ × ℚ => (p.2, p.1)) = Prod.fst := rfl
  have h3 : ((fun p : ℚ × ℚ => p.1 * p.2) ∘ fun p : ℚ × ℚ => (p.2, p.1)) =
      (fun p : ℚ × ℚ => p.1 * p.2) := by
    funext p
    simp [mul_comm]
  rw [h1, h2, h3]
  by_cases hd : dxOf ((commonPairs xs ys).map Prod.fst) = 0 ∨
      dxOf ((commonPairs xs ys).map Prod.snd) = 0
  · rw [if_pos (Or.symm hd), if_pos hd]
  · rw [if_neg (fun hc => hd (Or.symm hc)), if_neg hd]
    simp only [Option.some.injEq, CorrRepr.mk.injEq]
    constructor
    · ring
    · ring

theorem getCorrelation_matrix_nil (df : Table) (fc fo : Option String) (fv : Option Cell)
    (h : (numericColNames (applyFilter df fc fo fv)).length < 2 ∨
      (applyFilter df fc fo fv).rows.length = 0) :
    (getCorrelation df fc fo fv).matrix = [] := by
  simp only [getCorrelation]
  rcases h with h | h
  · by_cases he : (applyFilter df fc fo fv).rows.length = 0 ∨
        numericColNames (applyFilter df fc fo fv) = []
    · rw [if_pos (Or.inl he)]
    · rw [if_pos (Or.inr h)]
  · rw [if_pos (Or.inl (Or.inl h))]

theorem getCorrelation_entry (df : Table) (fc fo : Option String) (fv : Option Cell)
    (hlen : 2 ≤ (numericColNames (applyFilter df fc fo fv)).length)
    (hrows : (applyFilter df fc fo fv).rows.length ≠ 0) (i j : ℕ) :
    ((getCorrelation df fc fo fv).matrix[i]?.bind (fun row => row[j]?)) =
      match (numericColNames (applyFilter df fc fo fv))[i]?,
            (numericColNames (applyFilter df fc fo fv))[j]? with
      | some a, some b =>
        some (pearsonRepr (commonPairs ((applyFilter df fc fo fv).series a)
          ((applyFilter df fc fo fv).series b)))
      | _, _ => none := by
  have hne : numericColNames (applyFilter df fc fo fv) ≠ [] := by
    intro he
    rw [he] at hlen
    simp at hlen
  simp only [getCorrelation]
  rw [if_neg (by
    rintro ((h | h) | h)
    · exact hrows h
    · exact hne h
    · omega)]
  rcases hi : (numericColNames (applyFilter df fc fo fv))[i]? with _ | a <;>
    rcases hj : (numericColNames (applyFilter df fc fo fv))[j]? with _ | b <;>
      simp [List.getElem?_map, hi, hj]

theorem pearsonRepr_self_repr (s : List Cell)
    (hne : ¬(∀ x ∈ numVals s, ∀ y ∈ numVals s, x = y)) :
    pearsonRepr (commonPairs s s) =
      some ⟨dxOf (numVals s), dxOf (numVals s) * dxOf (numVals s)⟩ := by
  have hdxne : dxOf (numVals s) ≠ 0 := fun hz => hne (dxOf_eq_zero_all_eq hz)
  rw [commonPairs_self]
  simp only [pearsonRepr, List.map_map, List.length_map]
  have hf : (Prod.fst ∘ fun a : ℚ => (a, a)) = id := rfl
  have hs : (Prod.snd ∘ fun a : ℚ => (a, a)) = id := rfl
  have hm : ((fun p : ℚ × ℚ => p.1 * p.2) ∘ fun a : ℚ => (a, a)) = fun a : ℚ => a ^ 2 := by
    funext a
    simp [sq]
  rw [hf, hs, hm, List.map_id]
  rw [if_neg (by rintro (h | h) <;> exact hdxne h)]
  simp only [Option.some.injEq, CorrRepr.mk.injEq]
  constructor
  · rw [dxOf]
    ring
  · trivial

/-- C5: get_correlation returns an empty matrix when fewer than two
numeric columns exist or the frame is empty; otherwise the matrix is
square over the numeric column names; the matrix is always symmetric;
every row and column position of a zero-variance column (all numeric
values equal) holds none, the NaN of the source; and the diagonal entry
of every column with nonzero variance represents exactly 1.0. -/
theorem getCorrelation_matrix_props (df : Table) (fc fo : Option String) (fv : Option Cell) :
    ((numericColNames (applyFilter df fc fo fv)).length < 2 ∨
        (applyFilter df fc fo fv).rows.length = 0 →
      (getCorrelation df fc fo fv).matrix = []) ∧
    (2 ≤ (numericColNames (applyFilter df fc fo fv)).length →
      (applyFilter df fc fo fv).rows.length ≠ 0 →
      (getCorrelation df fc fo fv).columns = numericColNames (applyFilter df fc fo fv) ∧
      (getCorrelation df fc fo fv).matrix.length =
        (getCorrelation df fc fo fv).columns.length ∧
      ∀ row ∈ (getCorrelation df fc fo fv).matrix,
        row.length = (getCorrelation df fc fo fv).columns.length) ∧
    (∀ i j : ℕ,
      (getCorrelation df fc fo fv).matrix[i]?.bind (fun row => row[j]?) =
      (getCorrelation df fc fo fv).matrix[j]?.bind (fun row => row[i]?)) ∧
    (∀ (i : ℕ) (name : String), 2 ≤ (numericColNames (applyFilter df fc fo fv)).length →
      (applyFilter df fc fo fv).rows.length ≠ 0 →
      (numericColNames (applyFilter df fc fo fv))[i]? = some name →
      (∀ x ∈ numVals ((applyFilter df fc fo fv).series name),
        ∀ y ∈ numVals ((applyFilter df fc fo fv).series name), x = y) →
      ∀ j : ℕ, j < (numericColNames (applyFilter df fc fo fv)).length →
        (getCorrelation df fc fo fv).matrix[i]?.bind (fun row => row[j]?) = some none) ∧
    (∀ (i : ℕ) (name : String), 2 ≤ (numericColNames (applyFilter df fc fo fv)).length →
      (applyFilter df fc fo fv).rows.length ≠ 0 →
      (numericColNames (applyFilter df fc fo fv))[i]? = some name →
      ¬(∀ x ∈ numVals ((applyFilter df fc fo fv).series name),
          ∀ y ∈ numVals ((applyFilter df fc fo fv).series name), x = y) →
      ∃ e, (getCorrelation df fc fo fv).matrix[i]?.bind (fun row => row[i]?) =
          some (some e) ∧ e.repOne) := by
  refine ⟨getCorrelation_matrix_nil df fc fo fv, ?_, ?_, ?_, ?_⟩
  · intro hlen hrows
    have hne : numericColNames (applyFilter df fc fo fv) ≠ [] := by
      intro he
      rw [he] at hlen
      simp at hlen
    simp only [getCorrelation]
    rw [if_neg (by
      rintro ((h | h) | h)
      · exact hrows h
      · exact hne h
      · omega)]
    refine ⟨rfl, by simp, ?_⟩
    intro row hrow
    simp only [List.mem_map] at hrow
    obtain ⟨a, _, rfl⟩ := hrow
    simp
  · intro i j
    by_cases hmain : 2 ≤ (numericColNames (applyFilter df fc fo fv)).length ∧
        (applyFilter df fc fo fv).rows.length ≠ 0
    · rw [getCorrelation_entry df fc fo fv hmain.1 hmain.2 i j,
        getCorrelation_entry df fc fo fv hmain.1 hmain.2 j i]
      rcases hi : (numericColNames (applyFilter df fc fo fv))[i]? with _ | a <;>
        rcases hj : (numericColNames (applyFilter df fc fo fv))[j]? with _ | b
      · rfl
      · rfl
      · rfl
      · exact congrArg some (pearsonRepr_symm _ _).symm
    · have hnil := getCorrelation_matrix_nil df fc fo fv (by
        rcases not_and_or.mp hmain with h | h
        · exact Or.inl (not_le.mp h)
        · exact Or.inr (not_ne_iff.mp h))
      rw [hnil]
      simp
  · intro i name hlen hrows hi hall j hj
    rw [getCorrelation_entry df fc fo fv hlen hrows i j, hi,
      List.getElem?_eq_getElem hj]
    show some (pearsonRepr _) = some none
    refine congrArg some ?_
    have hdx : dxOf ((commonPairs ((applyFilter df fc fo fv).series name)
        ((applyFilter df fc fo fv).series
          ((numericColNames (applyFilter df fc fo fv))[j]))).map Prod.fst) = 0 := by
      apply dxOf_const
      intro x hx y hy
      simp only [List.mem_map] at hx hy
      obtain ⟨p, hp, rfl⟩ := hx
      obtain ⟨q, hq, rfl⟩ := hy
      exact hall _ (commonPairs_mem_fst hp) _ (commonPairs_mem_fst hq)
    simp [pearsonRepr, hdx]
  · intro i name hlen hrows hi hne
    rw [getCorrelation_entry df fc fo fv hlen hrows i i, hi]
    refine ⟨⟨dxOf (numVals ((applyFilter df fc fo fv).series name)),
      dxOf (numVals ((applyFilter df fc fo fv).series name)) *
        dxOf (numVals ((applyFilter df fc fo fv).series name))⟩, ?_, ?_, ?_⟩
    · show some (pearsonRepr _) = some (some _)
      exact congrArg some (pearsonRepr_self_repr _ hne)
    · exact lt_of_le_of_ne (dxOf_nonneg _)
        (Ne.symm (fun hz => hne (dxOf_eq_zero_all_eq hz)))
    · exact pow_two _

/-- Witness for C5 at a concrete two-column table with one constant
column: the constant column row holds none and the varying column has a
diagonal entry representing exactly 1. -/
theorem getCorrelation_matrix_props_witness :
    (getCorrelation corrDf none none none).matrix[1]?.bind (fun row => row[0]?) = some none ∧
    ∃ e, (getCorrelation corrDf none none none).matrix[0]?.bind (fun row => row[0]?) =
        some (some e) ∧ e.repOne := by
  constructor
  · exact (getCorrelation_matrix_props corrDf none none none).2.2.2.1 1 "b" (by decide)
      (by decide) (by decide) (by decide) 0 (by decide)
  · exact (getCorrelation_matrix_props corrDf none none none).2.2.2.2 0 "a" (by decide)
      (by decide) (by decide) (by decide)
